import Mathlib

/-!
Verification of the multi-format resume rendering engine of
`app_working.py` (class `SimpleExportManager`).

The data model mirrors the `resume_data` dictionary built by
`initialize_session_state`: each optional string field of a record is an
`Option String` (`none` models an absent key, `some ""` an empty value),
matching the Python `dict.get` access discipline of the renderers.

The three renderers are shallowly embedded:
  * `export_to_pdf` is modelled by `exportToPdfStory`, the ordered list of
    flowable blocks (`Paragraph`/`Spacer`) appended to `story`;
  * `export_to_docx` is modelled by `docxParagraphs`, the ordered list of
    paragraphs (runs with bold/size attributes, optional style, alignment)
    added to the document;
  * `export_to_html` is modelled by `exportToHtml`, the exact string the
    Python function concatenates (formatting of the f-string literals is
    reproduced verbatim; literal braces of the embedded CSS are written
    with hex escapes).
-/

set_option maxRecDepth 40000

/-- Python truthiness of an optional string field: an absent key (`none`)
and an empty string are both falsy, exactly as in `if personal.get(k):`. -/
def truthy (o : Option String) : Bool := o.getD "" != ""

/-- Value of an optional field as used after `dict.get(k, fallback)` with an
empty-string fallback, or after a subscript access guarded by truthiness. -/
def getS (o : Option String) : String := o.getD ""

/-- The `personal` sub-dictionary of `resume_data`. -/
structure Personal where
  full_name : Option String := none
  email : Option String := none
  phone : Option String := none
  location : Option String := none
  linkedin : Option String := none
  website : Option String := none
  deriving DecidableEq

/-- One entry of the `work_experience` list. -/
structure Experience where
  job_title : Option String := none
  company : Option String := none
  location : Option String := none
  start_date : Option String := none
  end_date : Option String := none
  bullets : List String := []
  deriving DecidableEq

/-- One entry of the `education` list. -/
structure Education where
  degree : Option String := none
  major : Option String := none
  school : Option String := none
  graduation_date : Option String := none
  gpa : Option String := none
  honors : Option String := none
  deriving DecidableEq

/-- The document handed to the export manager: `skills` is the
insertion-ordered mapping from category name to skill list. -/
structure Resume where
  personal : Personal := {}
  summary : Option String := none
  work_experience : List Experience := []
  education : List Education := []
  skills : List (String × List String) := []
  deriving DecidableEq

/-- Style of a ReportLab paragraph in `export_to_pdf`: `title_style`,
`heading_style` or `body_style`. -/
inductive PStyle where
  | title
  | heading
  | body
  deriving DecidableEq

/-- A flowable appended to `story` in `export_to_pdf`: a `Paragraph` with
its style, or a `Spacer(a, b)`. -/
inductive PBlock where
  | para (style : PStyle) (text : String)
  | spacer (a b : Nat)
  deriving DecidableEq

/-- The `contact_info` list built in `export_to_pdf` (lines 199-205). -/
def pdfContactInfo (p : Personal) : List String :=
  (if truthy p.email then [getS p.email] else []) ++
  (if truthy p.phone then [getS p.phone] else []) ++
  (if truthy p.location then [getS p.location] else [])

/-- Header blocks of `export_to_pdf` (lines 196-210). -/
def pdfHeader (p : Personal) : List PBlock :=
  if truthy p.full_name then
    [PBlock.para .title (getS p.full_name)] ++
    (if pdfContactInfo p ≠ [] then
      [PBlock.para .body (String.intercalate " • " (pdfContactInfo p))]
     else []) ++
    [PBlock.spacer 1 12]
  else []

/-- Professional-summary blocks of `export_to_pdf` (lines 213-216). -/
def pdfSummary (r : Resume) : List PBlock :=
  if truthy r.summary then
    [PBlock.para .heading "PROFESSIONAL SUMMARY",
     PBlock.para .body (getS r.summary),
     PBlock.spacer 1 12]
  else []

/-- The `job_header` string of `export_to_pdf` (lines 223-225). -/
def pdfJobHeader (e : Experience) : String :=
  let base := "<b>" ++ getS e.job_title ++ "</b> - " ++ getS e.company
  if truthy e.location then base ++ " (" ++ getS e.location ++ ")" else base

/-- The `date_range` string of `export_to_pdf` (line 228): the `Present`
fallback of `exp.get('end_date', 'Present')` fires only when the key is
absent. -/
def pdfDateRange (e : Experience) : String :=
  getS e.start_date ++ " to " ++ e.end_date.getD "Present"

/-- Blocks emitted for one work-experience entry (lines 223-234). -/
def pdfExpBlocks (e : Experience) : List PBlock :=
  [PBlock.para .body (pdfJobHeader e),
   PBlock.para .body ("<i>" ++ pdfDateRange e ++ "</i>")] ++
  e.bullets.map (fun b => PBlock.para .body ("• " ++ b)) ++
  [PBlock.spacer 1 8]

/-- Work-experience section of `export_to_pdf` (lines 219-234). -/
def pdfExperience (r : Resume) : List PBlock :=
  if r.work_experience ≠ [] then
    PBlock.para .heading "PROFESSIONAL EXPERIENCE" ::
      (r.work_experience.map pdfExpBlocks).flatten
  else []

/-- The `edu_text` string of `export_to_pdf` (lines 241-246). -/
def pdfEduText (e : Education) : String :=
  "<b>" ++ getS e.degree ++ "</b>" ++
  (if truthy e.major then " in " ++ getS e.major else "") ++
  " - " ++ getS e.school ++
  (if truthy e.graduation_date then " (" ++ getS e.graduation_date ++ ")" else "")

/-- Education section of `export_to_pdf` (lines 237-248). -/
def pdfEducation (r : Resume) : List PBlock :=
  if r.education ≠ [] then
    PBlock.para .heading "EDUCATION" ::
      (r.education.map (fun e => [PBlock.para .body (pdfEduText e), PBlock.spacer 1 4])).flatten
  else []

/-- The `skills_text` string of `export_to_pdf` (line 256). -/
def pdfSkillLine (c : String × List String) : String :=
  "<b>" ++ c.1 ++ ":</b> " ++ String.intercalate ", " c.2

/-- Per-category skill lines of `export_to_pdf` (lines 254-257): a category
with an empty list contributes nothing. -/
def pdfSkillsBody (skills : List (String × List String)) : List PBlock :=
  (skills.map (fun c => if c.2 ≠ [] then [PBlock.para .body (pdfSkillLine c)] else [])).flatten

/-- Skills section of `export_to_pdf` (lines 251-257). -/
def pdfSkills (r : Resume) : List PBlock :=
  if r.skills ≠ [] then PBlock.para .heading "SKILLS" :: pdfSkillsBody r.skills
  else []

/-- The full `story` list built by `export_to_pdf` (lines 192-259), in
order: header, summary, work experience, education, skills. -/
def exportToPdfStory (r : Resume) : List PBlock :=
  pdfHeader r.personal ++ pdfSummary r ++ pdfExperience r ++
  pdfEducation r ++ pdfSkills r

/-- A run of text inside a DOCX paragraph, with the emphasis attributes
`export_to_docx` sets (`bold`, `font.size` in points). -/
structure DRun where
  text : String
  bold : Bool := false
  size : Option Nat := none
  deriving DecidableEq

/-- A paragraph added by `export_to_docx`: its runs, its optional named
style (`'List Bullet'` for bullets) and whether its alignment was set to
center. -/
structure DPara where
  runs : List DRun := []
  style : Option String := none
  centered : Bool := false
  deriving DecidableEq

/-- Model of `doc.add_paragraph(text)`: python-docx adds a run only when
the text is non-empty. -/
def dPara (text : String) : DPara :=
  ⟨if text = "" then [] else [⟨text, false, none⟩], none, false⟩

/-- Model of `_add_section_heading` (lines 361-366): one bold 14pt run. -/
def dHeading (title : String) : DPara :=
  ⟨[⟨title, true, some 14⟩], none, false⟩

/-- Header paragraphs of `export_to_docx` (lines 282-301): centered bold
18pt name, optional centered contact line, then a blank paragraph. -/
def docxHeader (p : Personal) : List DPara :=
  if truthy p.full_name then
    [⟨[⟨getS p.full_name, true, some 18⟩], none, true⟩] ++
    (if pdfContactInfo p ≠ [] then
      [{ dPara (String.intercalate " • " (pdfContactInfo p)) with centered := true }]
     else []) ++
    [dPara ""]
  else []

/-- Summary paragraphs of `export_to_docx` (lines 304-306). -/
def docxSummary (r : Resume) : List DPara :=
  if truthy r.summary then
    [dHeading "PROFESSIONAL SUMMARY", dPara (getS r.summary)]
  else []

/-- Text of the bold job run in `export_to_docx` (line 314): no location
suffix is ever appended in this format. -/
def docxJobText (e : Experience) : String :=
  getS e.job_title ++ " - " ++ getS e.company

/-- The `date_range` string of `export_to_docx` (line 317). -/
def docxDateRange (e : Experience) : String :=
  getS e.start_date ++ " to " ++ e.end_date.getD "Present"

/-- Paragraphs emitted for one work-experience entry (lines 312-323). -/
def docxExpParas (e : Experience) : List DPara :=
  [⟨[⟨docxJobText e, true, none⟩], none, false⟩,
   dPara (docxDateRange e)] ++
  e.bullets.map (fun b => ⟨if b = "" then [] else [⟨b, false, none⟩], some "List Bullet", false⟩) ++
  [dPara ""]

/-- Work-experience section of `export_to_docx` (lines 309-323). -/
def docxExperience (r : Resume) : List DPara :=
  if r.work_experience ≠ [] then
    dHeading "PROFESSIONAL EXPERIENCE" :: (r.work_experience.map docxExpParas).flatten
  else []

/-- Runs of one education paragraph of `export_to_docx` (lines 330-340):
bold degree, optional major, school, optional graduation date. -/
def docxEduRuns (e : Education) : List DRun :=
  ⟨getS e.degree, true, none⟩ ::
  ((if truthy e.major then [⟨" in " ++ getS e.major, false, none⟩] else []) ++
   [⟨" - " ++ getS e.school, false, none⟩] ++
   (if truthy e.graduation_date then [⟨" (" ++ getS e.graduation_date ++ ")", false, none⟩] else []))

/-- Concatenated text of the runs of one education paragraph. -/
def docxEduText (e : Education) : String :=
  ((docxEduRuns e).map DRun.text).foldr (· ++ ·) ""

/-- Education section of `export_to_docx` (lines 326-340). -/
def docxEducation (r : Resume) : List DPara :=
  if r.education ≠ [] then
    dHeading "EDUCATION" :: r.education.map (fun e => ⟨docxEduRuns e, none, false⟩)
  else []

/-- Per-category skill paragraphs of `export_to_docx` (lines 346-351). -/
def docxSkillsBody (skills : List (String × List String)) : List DPara :=
  (skills.map (fun c =>
    if c.2 ≠ [] then
      [(⟨[⟨c.1 ++ ": ", true, none⟩, ⟨String.intercalate ", " c.2, false, none⟩], none, false⟩ : DPara)]
    else [])).flatten

/-- Skills section of `export_to_docx` (lines 343-351). -/
def docxSkills (r : Resume) : List DPara :=
  if r.skills ≠ [] then dHeading "SKILLS" :: docxSkillsBody r.skills
  else []

/-- The full paragraph sequence built by `export_to_docx` (lines 279-351). -/
def docxParagraphs (r : Resume) : List DPara :=
  docxHeader r.personal ++ docxSummary r ++ docxExperience r ++
  docxEducation r ++ docxSkills r

/-- Literal part of the HTML template before the interpolated title name
(`export_to_html`, lines 372-377). -/
def htmlHeadA : String :=
"\n        <!DOCTYPE html>\n        <html>\n        <head>\n            <meta charset=\"UTF-8\">\n            <title>Resume - "

/-- Literal part between the title and the name `div` (lines 377-395),
with the embedded CSS braces written as hex escapes. -/
def htmlHeadB : String :=
"</title>\n            <style>\n                body \x7b font-family: Arial, sans-serif; margin: 40px; color: #333; line-height: 1.6; \x7d\n                .header \x7b text-align: center; border-bottom: 2px solid #2E86C1; padding-bottom: 20px; margin-bottom: 30px; \x7d\n                .name \x7b font-size: 28px; font-weight: bold; color: #2E86C1; margin-bottom: 10px; \x7d\n                .contact \x7b margin-bottom: 5px; \x7d\n                .section \x7b margin-bottom: 25px; \x7d\n                .section-title \x7b font-size: 18px; font-weight: bold; color: #2E86C1; border-bottom: 1px solid #85C1E9; padding-bottom: 5px; margin-bottom: 15px; \x7d\n                .job-title \x7b font-weight: bold; color: #2E86C1; \x7d\n                .company \x7b font-weight: 600; \x7d\n                .date-range \x7b font-style: italic; color: #666; font-size: 14px; \x7d\n                .bullet \x7b margin: 5px 0 5px 20px; \x7d\n                .skill-category \x7b margin-bottom: 10px; \x7d\n                .skill-category strong \x7b color: #2E86C1; \x7d\n            </style>\n        </head>\n        <body>\n            <div class=\"header\">\n                <div class=\"name\">"

/-- Literal part between the name and the email slot of the contact
`div` (lines 395-396). -/
def htmlHeadC : String :=
"</div>\n                <div class=\"contact\">"

/-- Literal tail of the first f-string (lines 396-397). -/
def htmlHeadD : String :=
"</div>\n        "

/-- The head f-string of `export_to_html` (lines 372-397): the `title`
falls back to `Resume` only when the `full_name` key is absent, while the
name and contact slots interpolate the fields with an empty fallback; the
contact `div` is emitted unconditionally. -/
def htmlHead (p : Personal) : String :=
  htmlHeadA ++ p.full_name.getD "Resume" ++ htmlHeadB ++ getS p.full_name ++
  htmlHeadC ++ getS p.email ++ " | " ++ getS p.phone ++ " | " ++ getS p.location ++
  htmlHeadD

/-- Optional LinkedIn/website line of `export_to_html` (lines 399-405). -/
def htmlLinks (p : Personal) : String :=
  if truthy p.linkedin || truthy p.website then
    "<div class=\x27contact\x27>" ++
    (if truthy p.linkedin then "LinkedIn: " ++ getS p.linkedin else "") ++
    (if truthy p.website then " | Website: " ++ getS p.website else "") ++
    "</div>"
  else ""

/-- Summary section of `export_to_html` (lines 410-416). -/
def htmlSummaryPart (r : Resume) : String :=
  if truthy r.summary then
    "\n            <div class=\"section\">\n                <div class=\"section-title\">Professional Summary</div>\n                <p>" ++
    getS r.summary ++
    "</p>\n            </div>\n            "
  else ""

/-- Content of the title `div` of one experience entry (line 425). -/
def htmlExpTitleLine (e : Experience) : String :=
  "<span class=\"job-title\">" ++ getS e.job_title ++
  "</span> - <span class=\"company\">" ++ getS e.company ++ "</span>"

/-- Content of the date-range `div` of one experience entry (line 426):
the location is appended here, after a pipe separator. -/
def htmlExpDateLine (e : Experience) : String :=
  getS e.start_date ++ " to " ++ e.end_date.getD "Present" ++ " | " ++ getS e.location

/-- Markup emitted for one work-experience entry (lines 423-430). -/
def htmlExpOne (e : Experience) : String :=
  "\n                <div style=\"margin-bottom: 20px;\">\n                    <div>" ++
  htmlExpTitleLine e ++
  "</div>\n                    <div class=\"date-range\">" ++
  htmlExpDateLine e ++
  "</div>\n                " ++
  String.join (e.bullets.map (fun b => "<div class=\"bullet\">• " ++ b ++ "</div>")) ++
  "</div>"

/-- Work-experience section of `export_to_html` (lines 419-431). -/
def htmlExpPart (r : Resume) : String :=
  if r.work_experience ≠ [] then
    "<div class=\"section\"><div class=\"section-title\">Professional Experience</div>" ++
    String.join (r.work_experience.map htmlExpOne) ++ "</div>"
  else ""

/-- Content of the education title `div` (line 440): the ` in ` fragment
is interpolated unconditionally. -/
def htmlEduTitle (e : Education) : String :=
  getS e.degree ++ " in " ++ getS e.major ++ " - " ++ getS e.school

/-- Content of the education date `div` (line 441), also unconditional. -/
def htmlEduDate (e : Education) : String :=
  "Graduated: " ++ getS e.graduation_date

/-- Markup emitted for one education entry (lines 438-443). -/
def htmlEduOne (e : Education) : String :=
  "\n                <div style=\"margin-bottom: 15px;\">\n                    <div class=\"job-title\">" ++
  htmlEduTitle e ++
  "</div>\n                    <div class=\"date-range\">" ++
  htmlEduDate e ++
  "</div>\n                </div>\n                "

/-- Education section of `export_to_html` (lines 434-444). -/
def htmlEduPart (r : Resume) : String :=
  if r.education ≠ [] then
    "<div class=\"section\"><div class=\"section-title\">Education</div>" ++
    String.join (r.education.map htmlEduOne) ++ "</div>"
  else ""

/-- Markup of one non-empty skill category (line 452). -/
def htmlSkillsOne (c : String × List String) : String :=
  "<div class=\"skill-category\"><strong>" ++ c.1 ++ ":</strong> " ++
  String.intercalate ", " c.2 ++ "</div>"

/-- Per-category markup of the skills loop (lines 450-452): empty
categories contribute nothing. -/
def htmlSkillsBody (skills : List (String × List String)) : String :=
  String.join (skills.map (fun c => if c.2 ≠ [] then htmlSkillsOne c else ""))

/-- Skills section of `export_to_html` (lines 447-453). -/
def htmlSkillsPart (r : Resume) : String :=
  if r.skills ≠ [] then
    "<div class=\"section\"><div class=\"section-title\">Skills</div>" ++
    htmlSkillsBody r.skills ++ "</div>"
  else ""

/-- The full string returned by `export_to_html` (lines 369-456), in the
order the Python function concatenates it. -/
def exportToHtml (r : Resume) : String :=
  htmlHead r.personal ++ htmlLinks r.personal ++ "</div>" ++
  htmlSummaryPart r ++ htmlExpPart r ++ htmlEduPart r ++ htmlSkillsPart r ++
  "</body></html>"

/-- State-passing reading of `export_to_pdf`: the function reads
`resume_data` only through `get` accesses and never assigns into it, so
the document threaded through the call comes back unchanged alongside the
built story. -/
def exportToPdfSt (r : Resume) : List PBlock × Resume :=
  (pdfHeader r.personal ++ pdfSummary r ++ pdfExperience r ++
   pdfEducation r ++ pdfSkills r, r)

/-- State-passing reading of `export_to_docx` (read-only access). -/
def exportToDocxSt (r : Resume) : List DPara × Resume :=
  (docxHeader r.personal ++ docxSummary r ++ docxExperience r ++
   docxEducation r ++ docxSkills r, r)

/-- State-passing reading of `export_to_html` (read-only access). -/
def exportToHtmlSt (r : Resume) : String × Resume :=
  (htmlHead r.personal ++ htmlLinks r.personal ++ "</div>" ++
   htmlSummaryPart r ++ htmlExpPart r ++ htmlEduPart r ++ htmlSkillsPart r ++
   "</body></html>", r)

/-- Boolean test that one character list starts with another. -/
def startsL : List Char → List Char → Bool
  | [], _ => true
  | _ :: _, [] => false
  | a :: as, b :: bs => a == b && startsL as bs

/-- Boolean substring search on character lists. -/
def hasSubL (pat : List Char) : List Char → Bool
  | [] => startsL pat []
  | l@(_ :: rest) => startsL pat l || hasSubL pat rest

/-- Decidable substring occurrence, used on concrete outputs. -/
def strInB (m s : String) : Bool := hasSubL m.toList s.toList

/-- Propositional substring occurrence: `m` occurs inside `s`. -/
def strIn (m s : String) : Prop := ∃ a b, s = a ++ m ++ b

/-- The end-to-end scenario document of the specification: Jane Doe with
one experience entry whose `end_date` is the empty string. -/
def janeExp : Experience :=
  { job_title := some "Engineer", company := some "Acme",
    start_date := some "01/2020", end_date := some "",
    bullets := ["Shipped X"] }

/-- The full Jane Doe scenario document. -/
def janeDoc : Resume :=
  { personal := { full_name := some "Jane Doe", email := some "jane@x.com" },
    summary := some "", work_experience := [janeExp] }

/-- A document whose personal record has only an email address. -/
def docOnlyEmail : Resume := { personal := { email := some "a@b.com" } }

/-- A document whose personal record has only a full name. -/
def docOnlyName : Resume := { personal := { full_name := some "Jane Doe" } }

/-- A document whose full name carries markup-significant characters. -/
def docScript : Resume :=
  { personal := { full_name := some "<script>alert(1)</script>" } }

/-- An experience entry with a non-empty location. -/
def expLoc : Experience :=
  { job_title := some "Engineer", company := some "Acme", location := some "NYC" }

/-- An education entry with no major and no graduation date. -/
def eduNoMajor : Education := { degree := some "BS", school := some "MIT" }

/-- A skills mapping holding an empty category between two non-empty ones. -/
def docSkillsMix : Resume :=
  { skills := [("Languages", ["Python"]), ("Tools", []), ("Cloud", ["AWS"])] }

/-- The same document with the empty category deleted. -/
def docSkillsMixClean : Resume :=
  { skills := [("Languages", ["Python"]), ("Cloud", ["AWS"])] }

/-- A non-empty skills mapping whose categories are all empty. -/
def docSkillsAllEmpty : Resume := { skills := [("Tools", []), ("Extra", [])] }

/-- A dynamically-typed Python value, for the shapes `export_to_pdf` and
`export_to_docx` can receive: the renderers are not guarded by any schema
validation, so they accept an arbitrary value and fail only where an
attribute access, subscript, iteration or join fails at runtime. -/
inductive Dyn where
  | pynone
  | int (n : Int)
  | str (s : String)
  | list (items : List Dyn)
  | dict (entries : List (String × Dyn))

/-- Python type name of a value, as it appears in runtime error text.
Error strings model `str(e)` of the raised exception, which is what the
`except` clauses of the renderers interpolate into their wrapped message. -/
def dynTypeName : Dyn → String
  | .pynone => "NoneType"
  | .int _ => "int"
  | .str _ => "str"
  | .list _ => "list"
  | .dict _ => "dict"

/-- Python truthiness of a dynamic value. -/
def truthyD : Dyn → Bool
  | .pynone => false
  | .int n => n != 0
  | .str s => s != ""
  | .list l => !l.isEmpty
  | .dict d => !d.isEmpty

mutual

/-- Python `repr` of a value (string conversion used inside containers). -/
def pyRepr : Dyn → String
  | .pynone => "None"
  | .int n => toString n
  | .str s => "\x27" ++ s ++ "\x27"
  | .list l => "[" ++ String.intercalate ", " (pyReprList l) ++ "]"
  | .dict d => "\x7b" ++ String.intercalate ", " (pyReprEntries d) ++ "\x7d"

/-- `repr` of the elements of a list. -/
def pyReprList : List Dyn → List String
  | [] => []
  | d :: ds => pyRepr d :: pyReprList ds

/-- `repr` of the entries of a dictionary. -/
def pyReprEntries : List (String × Dyn) → List String
  | [] => []
  | e :: es => ("\x27" ++ e.1 ++ "\x27: " ++ pyRepr e.2) :: pyReprEntries es

end

/-- Python `str` of a value, as applied by f-string interpolation. -/
def pyStr : Dyn → String
  | .str s => s
  | d => pyRepr d

/-- Model of `d.get(k, fallback)`: only dictionaries carry a `get`
attribute. -/
def pyGet (d : Dyn) (k : String) (fallback : Dyn) : Except String Dyn :=
  match d with
  | .dict entries => .ok ((entries.lookup k).getD fallback)
  | _ => .error ("\x27" ++ dynTypeName d ++ "\x27 object has no attribute \x27get\x27")

/-- Model of the subscript `d[k]`. -/
def pySub (d : Dyn) (k : String) : Except String Dyn :=
  match d with
  | .dict entries =>
    match entries.lookup k with
    | some v => .ok v
    | none => .error ("\x27" ++ k ++ "\x27")
  | _ => .error ("\x27" ++ dynTypeName d ++ "\x27 object is not subscriptable")

/-- Model of `for x in d`: lists yield their items, strings their
characters, dictionaries their keys; other values are not iterable. -/
def pyIter (d : Dyn) : Except String (List Dyn) :=
  match d with
  | .list l => .ok l
  | .str s => .ok (s.toList.map (fun c => .str (String.singleton c)))
  | .dict entries => .ok (entries.map (fun e => .str e.1))
  | _ => .error ("\x27" ++ dynTypeName d ++ "\x27 object is not iterable")

/-- Model of `d.items()`. -/
def pyItems (d : Dyn) : Except String (List (String × Dyn)) :=
  match d with
  | .dict entries => .ok entries
  | _ => .error ("\x27" ++ dynTypeName d ++ "\x27 object has no attribute \x27items\x27")

/-- Model of `sep.join` over an already-materialised list of values:
every item must be a string. -/
def pyJoinItems : List Dyn → Except String (List String)
  | [] => .ok []
  | .str s :: rest => do
    let r ← pyJoinItems rest
    .ok (s :: r)
  | d :: _ => .error ("sequence item: expected str instance, " ++ dynTypeName d ++ " found")

/-- Model of `sep.join(d)` for a dynamic iterable. -/
def pyJoin (sep : String) (d : Dyn) : Except String String := do
  let items ← pyIter d
  let strs ← pyJoinItems items
  .ok (String.intercalate sep strs)

/-- One step of the `contact_info` building pattern of lines 199-205 (and
289-295): test `personal.get(k)` for truthiness, then append
`personal[k]`. -/
def dynContactField (personal : Dyn) (k : String) : Except String (List Dyn) := do
  let x ← pyGet personal k .pynone
  if truthyD x then do
    let v ← pySub personal k
    pure [v]
  else pure []

/-- The full `contact_info` list of lines 199-205 (and 289-295): email,
phone, location. -/
def dynContactInfo (personal : Dyn) : Except String (List Dyn) := do
  let c1 ← dynContactField personal "email"
  let c2 ← dynContactField personal "phone"
  let c3 ← dynContactField personal "location"
  pure (c1 ++ c2 ++ c3)

/-- Dynamic model of the header part of `export_to_pdf` (lines 193-210).
The text handed to a `Paragraph` is modelled through the `str` conversion
`pyStr`; failures internal to the layout library are out of scope. -/
def pdfDynHeader (personal : Dyn) : Except String (List PBlock) := do
  let fn ← pyGet personal "full_name" .pynone
  if truthyD fn then do
    let fnv ← pySub personal "full_name"
    let contact ← dynContactInfo personal
    let contactPart ← if contact.isEmpty then pure [] else do
        let j ← pyJoinItems contact
        pure [PBlock.para .body (String.intercalate " • " j)]
    pure ([PBlock.para .title (pyStr fnv)] ++ contactPart ++ [PBlock.spacer 1 12])
  else
    pure []

/-- Dynamic model of the summary part of `export_to_pdf` (lines 213-216). -/
def pdfDynSummary (rd : Dyn) : Except String (List PBlock) := do
  let s ← pyGet rd "summary" .pynone
  if truthyD s then do
    let sv ← pySub rd "summary"
    pure [PBlock.para .heading "PROFESSIONAL SUMMARY",
          PBlock.para .body (pyStr sv), PBlock.spacer 1 12]
  else pure []

/-- Dynamic model of one experience iteration of `export_to_pdf`
(lines 222-234). -/
def pdfDynExpOne (exp : Dyn) : Except String (List PBlock) := do
  let jt ← pyGet exp "job_title" (.str "")
  let co ← pyGet exp "company" (.str "")
  let base := "<b>" ++ pyStr jt ++ "</b> - " ++ pyStr co
  let lo ← pyGet exp "location" .pynone
  let header ← if truthyD lo then do
      let lv ← pySub exp "location"
      pure (base ++ " (" ++ pyStr lv ++ ")")
    else pure base
  let sd ← pyGet exp "start_date" (.str "")
  let ed ← pyGet exp "end_date" (.str "Present")
  let bs ← pyGet exp "bullets" (.list [])
  let bl ← pyIter bs
  pure ([PBlock.para .body header,
         PBlock.para .body ("<i>" ++ pyStr sd ++ " to " ++ pyStr ed ++ "</i>")] ++
        bl.map (fun b => PBlock.para .body ("• " ++ pyStr b)) ++
        [PBlock.spacer 1 8])

/-- Dynamic model of the work-experience part of `export_to_pdf`
(lines 219-234). -/
def pdfDynExperience (rd : Dyn) : Except String (List PBlock) := do
  let we ← pyGet rd "work_experience" (.list [])
  if truthyD we then do
    let exps ← pyIter we
    let parts ← exps.mapM pdfDynExpOne
    pure (PBlock.para .heading "PROFESSIONAL EXPERIENCE" :: parts.flatten)
  else pure []

/-- Dynamic model of one education iteration of `export_to_pdf`
(lines 240-248). -/
def pdfDynEduOne (edu : Dyn) : Except String (List PBlock) := do
  let dg ← pyGet edu "degree" (.str "")
  let t1 := "<b>" ++ pyStr dg ++ "</b>"
  let mj ← pyGet edu "major" .pynone
  let t2 ← if truthyD mj then do
      let mv ← pySub edu "major"
      pure (t1 ++ " in " ++ pyStr mv)
    else pure t1
  let sc ← pyGet edu "school" (.str "")
  let t3 := t2 ++ " - " ++ pyStr sc
  let gd ← pyGet edu "graduation_date" .pynone
  let t4 ← if truthyD gd then do
      let gv ← pySub edu "graduation_date"
      pure (t3 ++ " (" ++ pyStr gv ++ ")")
    else pure t3
  pure [PBlock.para .body t4, PBlock.spacer 1 4]

/-- Dynamic model of the education part of `export_to_pdf`
(lines 237-248). -/
def pdfDynEducation (rd : Dyn) : Except String (List PBlock) := do
  let ed ← pyGet rd "education" (.list [])
  if truthyD ed then do
    let edus ← pyIter ed
    let parts ← edus.mapM pdfDynEduOne
    pure (PBlock.para .heading "EDUCATION" :: parts.flatten)
  else pure []

/-- Dynamic model of one skills iteration of `export_to_pdf`
(lines 254-257). -/
def pdfDynSkillsOne (c : String × Dyn) : Except String (List PBlock) :=
  if truthyD c.2 then do
    let j ← pyJoin ", " c.2
    pure [PBlock.para .body ("<b>" ++ c.1 ++ ":</b> " ++ j)]
  else pure []

/-- Dynamic model of the skills part of `export_to_pdf` (lines 251-257). -/
def pdfDynSkills (rd : Dyn) : Except String (List PBlock) := do
  let sk ← pyGet rd "skills" (.dict [])
  if truthyD sk then do
    let items ← pyItems sk
    let parts ← items.mapM pdfDynSkillsOne
    pure (PBlock.para .heading "SKILLS" :: parts.flatten)
  else pure []

/-- Dynamic model of the body of `export_to_pdf` (lines 159-261), before
the enclosing `try`/`except`. -/
def pdfDynBody (rd : Dyn) : Except String (List PBlock) := do
  let personal ← pyGet rd "personal" (.dict [])
  let h ← pdfDynHeader personal
  let s ← pdfDynSummary rd
  let w ← pdfDynExperience rd
  let e ← pdfDynEducation rd
  let k ← pdfDynSkills rd
  pure (h ++ s ++ w ++ e ++ k)

/-- Model of `export_to_pdf` over a dynamic document: any error raised by
the body is re-raised wrapped as `PDF export failed: ...` (lines 263-264);
there is no prior schema validation of any kind. -/
def exportToPdfDyn (rd : Dyn) : Except String (List PBlock) :=
  match pdfDynBody rd with
  | .ok story => .ok story
  | .error e => .error ("PDF export failed: " ++ e)

/-- Dynamic model of the header part of `export_to_docx` (lines 279-301). -/
def docxDynHeader (personal : Dyn) : Except String (List DPara) := do
  let fn ← pyGet personal "full_name" .pynone
  if truthyD fn then do
    let fnv ← pySub personal "full_name"
    let contact ← dynContactInfo personal
    let contactPart ← if contact.isEmpty then pure [] else do
        let j ← pyJoinItems contact
        pure [{ dPara (String.intercalate " • " j) with centered := true }]
    pure ([(⟨[⟨pyStr fnv, true, some 18⟩], none, true⟩ : DPara)] ++ contactPart ++ [dPara ""])
  else
    pure []

/-- Dynamic model of the summary part of `export_to_docx`
(lines 304-306). -/
def docxDynSummary (rd : Dyn) : Except String (List DPara) := do
  let s ← pyGet rd "summary" .pynone
  if truthyD s then do
    let sv ← pySub rd "summary"
    pure [dHeading "PROFESSIONAL SUMMARY", dPara (pyStr sv)]
  else pure []

/-- Dynamic model of one experience iteration of `export_to_docx`
(lines 312-323). -/
def docxDynExpOne (exp : Dyn) : Except String (List DPara) := do
  let jt ← pyGet exp "job_title" (.str "")
  let co ← pyGet exp "company" (.str "")
  let sd ← pyGet exp "start_date" (.str "")
  let ed ← pyGet exp "end_date" (.str "Present")
  let bs ← pyGet exp "bullets" (.list [])
  let bl ← pyIter bs
  pure ([(⟨[⟨pyStr jt ++ " - " ++ pyStr co, true, none⟩], none, false⟩ : DPara),
         dPara (pyStr sd ++ " to " ++ pyStr ed)] ++
        bl.map (fun b =>
          (⟨if pyStr b = "" then [] else [⟨pyStr b, false, none⟩], some "List Bullet", false⟩ : DPara)) ++
        [dPara ""])

/-- Dynamic model of the work-experience part of `export_to_docx`
(lines 309-323). -/
def docxDynExperience (rd : Dyn) : Except String (List DPara) := do
  let we ← pyGet rd "work_experience" (.list [])
  if truthyD we then do
    let exps ← pyIter we
    let parts ← exps.mapM docxDynExpOne
    pure (dHeading "PROFESSIONAL EXPERIENCE" :: parts.flatten)
  else pure []

/-- Dynamic model of one education iteration of `export_to_docx`
(lines 329-340). -/
def docxDynEduOne (edu : Dyn) : Except String (List DPara) := do
  let dg ← pyGet edu "degree" (.str "")
  let r1 : List DRun := [⟨pyStr dg, true, none⟩]
  let mj ← pyGet edu "major" .pynone
  let r2 ← if truthyD mj then do
      let mv ← pySub edu "major"
      pure (r1 ++ [(⟨" in " ++ pyStr mv, false, none⟩ : DRun)])
    else pure r1
  let sc ← pyGet edu "school" (.str "")
  let r3 := r2 ++ [(⟨" - " ++ pyStr sc, false, none⟩ : DRun)]
  let gd ← pyGet edu "graduation_date" .pynone
  let r4 ← if truthyD gd then do
      let gv ← pySub edu "graduation_date"
      pure (r3 ++ [(⟨" (" ++ pyStr gv ++ ")", false, none⟩ : DRun)])
    else pure r3
  pure [(⟨r4, none, false⟩ : DPara)]

/-- Dynamic model of the education part of `export_to_docx`
(lines 326-340). -/
def docxDynEducation (rd : Dyn) : Except String (List DPara) := do
  let ed ← pyGet rd "education" (.list [])
  if truthyD ed then do
    let edus ← pyIter ed
    let parts ← edus.mapM docxDynEduOne
    pure (dHeading "EDUCATION" :: parts.flatten)
  else pure []

/-- Dynamic model of one skills iteration of `export_to_docx`
(lines 346-351). -/
def docxDynSkillsOne (c : String × Dyn) : Except String (List DPara) :=
  if truthyD c.2 then do
    let j ← pyJoin ", " c.2
    pure [(⟨[⟨c.1 ++ ": ", true, none⟩, ⟨j, false, none⟩], none, false⟩ : DPara)]
  else pure []

/-- Dynamic model of the skills part of `export_to_docx`
(lines 343-351). -/
def docxDynSkills (rd : Dyn) : Except String (List DPara) := do
  let sk ← pyGet rd "skills" (.dict [])
  if truthyD sk then do
    let items ← pyItems sk
    let parts ← items.mapM docxDynSkillsOne
    pure (dHeading "SKILLS" :: parts.flatten)
  else pure []

/-- Dynamic model of the body of `export_to_docx` (lines 268-356). -/
def docxDynBody (rd : Dyn) : Except String (List DPara) := do
  let personal ← pyGet rd "personal" (.dict [])
  let h ← docxDynHeader personal
  let s ← docxDynSummary rd
  let w ← docxDynExperience rd
  let e ← docxDynEducation rd
  let k ← docxDynSkills rd
  pure (h ++ s ++ w ++ e ++ k)

/-- Model of `export_to_docx` over a dynamic document: errors are wrapped
as `DOCX export failed: ...` (lines 358-359); no prior validation. -/
def exportToDocxDyn (rd : Dyn) : Except String (List DPara) :=
  match docxDynBody rd with
  | .ok paras => .ok paras
  | .error e => .error ("DOCX export failed: " ++ e)

/-- Dictionary entry for an optional field: an absent field contributes no
key. -/
def optE (k : String) (o : Option String) : List (String × Dyn) :=
  match o with
  | some s => [(k, Dyn.str s)]
  | none => []

/-- Encoding of a `Personal` record as the Python dictionary it models. -/
def personalToDyn (p : Personal) : Dyn :=
  .dict (optE "full_name" p.full_name ++ optE "email" p.email ++
         optE "phone" p.phone ++ optE "location" p.location ++
         optE "linkedin" p.linkedin ++ optE "website" p.website)

/-- Encoding of an `Experience` record. -/
def expToDyn (e : Experience) : Dyn :=
  .dict (optE "job_title" e.job_title ++ optE "company" e.company ++
         optE "location" e.location ++ optE "start_date" e.start_date ++
         optE "end_date" e.end_date ++
         [("bullets", Dyn.list (e.bullets.map Dyn.str))])

/-- Encoding of an `Education` record. -/
def eduToDyn (e : Education) : Dyn :=
  .dict (optE "degree" e.degree ++ optE "major" e.major ++
         optE "school" e.school ++ optE "graduation_date" e.graduation_date ++
         optE "gpa" e.gpa ++ optE "honors" e.honors)

/-- Encoding of a whole schema-conforming document. -/
def resumeToDyn (r : Resume) : Dyn :=
  .dict ([("personal", personalToDyn r.personal)] ++
         optE "summary" r.summary ++
         [("work_experience", Dyn.list (r.work_experience.map expToDyn)),
          ("education", Dyn.list (r.education.map eduToDyn)),
          ("skills", Dyn.dict (r.skills.map (fun c => (c.1, Dyn.list (c.2.map Dyn.str)))))])

/-- A malformed document: its `work_experience` entry is a number, not a
sequence. -/
def badWorkExpDoc : Dyn := .dict [("work_experience", .int 5)]

theorem ne_empty_left (a b : String) (h : a ≠ "") : a ++ b ≠ "" := by
  intro hc
  apply h
  have hd := congrArg String.data hc
  rw [String.data_append] at hd
  have hnil : a.data ++ b.data = [] := hd
  exact String.ext (List.append_eq_nil.mp hnil).1

theorem strIn_appendR (m s t : String) (h : strIn m s) : strIn m (s ++ t) := by
  obtain ⟨a, b, hab⟩ := h
  exact ⟨a, b ++ t, by rw [hab, String.append_assoc, String.append_assoc]⟩

theorem strIn_appendL (m s t : String) (h : strIn m t) : strIn m (s ++ t) := by
  obtain ⟨a, b, hab⟩ := h
  exact ⟨s ++ a, b, by simp [hab, String.append_assoc]⟩

theorem strIn_self (m : String) : strIn m m :=
  ⟨"", "", by rw [String.empty_append, String.append_empty]⟩

theorem startsL_sound (p : List Char) :
    ∀ l : List Char, startsL p l = true → ∃ t, l = p ++ t := by
  induction p with
  | nil => exact fun l _ => ⟨l, rfl⟩
  | cons a as ih =>
    intro l h
    cases l with
    | nil => simp [startsL] at h
    | cons b bs =>
      simp only [startsL, Bool.and_eq_true, beq_iff_eq] at h
      obtain ⟨t, ht⟩ := ih bs h.2
      exact ⟨t, by rw [ht, h.1]; rfl⟩

theorem hasSubL_sound (p : List Char) :
    ∀ l : List Char, hasSubL p l = true → ∃ u t, l = u ++ p ++ t := by
  intro l
  induction l with
  | nil =>
    intro h
    obtain ⟨t, ht⟩ := startsL_sound p [] h
    exact ⟨[], t, ht⟩
  | cons c cs ih =>
    intro h
    simp only [hasSubL, Bool.or_eq_true] at h
    rcases h with h | h
    · obtain ⟨t, ht⟩ := startsL_sound p (c :: cs) h
      exact ⟨[], t, ht⟩
    · obtain ⟨u, t, hut⟩ := ih h
      exact ⟨c :: u, t, by rw [hut]; rfl⟩

theorem strInB_sound (m s : String) (h : strInB m s = true) : strIn m s := by
  obtain ⟨u, t, hut⟩ := hasSubL_sound m.toList s.toList h
  refine ⟨⟨u⟩, ⟨t⟩, String.ext ?_⟩
  rw [String.data_append, String.data_append]
  exact hut

theorem heading_notin_pdfHeader (p : Personal) (s : String) :
    PBlock.para .heading s ∉ pdfHeader p := by
  unfold pdfHeader
  split
  · split <;> simp
  · simp

theorem heading_mem_pdfSummary (r : Resume) (s : String) :
    PBlock.para .heading s ∈ pdfSummary r ↔
      truthy r.summary = true ∧ s = "PROFESSIONAL SUMMARY" := by
  unfold pdfSummary
  split
  · rename_i h
    simp [h]
  · rename_i h
    simp [h]

theorem heading_notin_pdfExpBlocks (e : Experience) (s : String) :
    PBlock.para .heading s ∉ pdfExpBlocks e := by
  simp [pdfExpBlocks]

theorem heading_mem_pdfExperience (r : Resume) (s : String) :
    PBlock.para .heading s ∈ pdfExperience r ↔
      r.work_experience ≠ [] ∧ s = "PROFESSIONAL EXPERIENCE" := by
  unfold pdfExperience
  split
  · rename_i h
    simp [h, List.mem_flatten, heading_notin_pdfExpBlocks]
  · rename_i h
    simp at h
    simp [h]

theorem heading_mem_pdfEducation (r : Resume) (s : String) :
    PBlock.para .heading s ∈ pdfEducation r ↔
      r.education ≠ [] ∧ s = "EDUCATION" := by
  unfold pdfEducation
  split
  · rename_i h
    simp [h, List.mem_flatten]
  · rename_i h
    simp at h
    simp [h]

theorem heading_notin_pdfSkillsBody (sk : List (String × List String)) (s : String) :
    PBlock.para .heading s ∉ pdfSkillsBody sk := by
  simp only [pdfSkillsBody, List.mem_flatten, List.mem_map]
  rintro ⟨l, ⟨c, hc, rfl⟩, hx⟩
  split at hx <;> simp at hx

theorem heading_mem_pdfSkills (r : Resume) (s : String) :
    PBlock.para .heading s ∈ pdfSkills r ↔ r.skills ≠ [] ∧ s = "SKILLS" := by
  unfold pdfSkills
  split
  · rename_i h
    simp [h, heading_notin_pdfSkillsBody]
  · rename_i h
    simp at h
    simp [h]

theorem pdf_heading_iff (r : Resume) (s : String) :
    PBlock.para .heading s ∈ exportToPdfStory r ↔
      (truthy r.summary = true ∧ s = "PROFESSIONAL SUMMARY") ∨
      (r.work_experience ≠ [] ∧ s = "PROFESSIONAL EXPERIENCE") ∨
      (r.education ≠ [] ∧ s = "EDUCATION") ∨
      (r.skills ≠ [] ∧ s = "SKILLS") := by
  simp [exportToPdfStory, List.mem_append, heading_notin_pdfHeader,
        heading_mem_pdfSummary, heading_mem_pdfExperience,
        heading_mem_pdfEducation, heading_mem_pdfSkills]

theorem title_mem_pdfHeader (p : Personal) (t : String) :
    PBlock.para .title t ∈ pdfHeader p ↔
      truthy p.full_name = true ∧ t = getS p.full_name := by
  unfold pdfHeader
  split
  · rename_i h
    split <;> simp [h]
  · rename_i h
    simp [h]

theorem title_notin_pdfSummary (r : Resume) (t : String) :
    PBlock.para .title t ∉ pdfSummary r := by
  unfold pdfSummary
  split <;> simp

theorem title_notin_pdfExperience (r : Resume) (t : String) :
    PBlock.para .title t ∉ pdfExperience r := by
  unfold pdfExperience
  split
  · simp [List.mem_flatten, pdfExpBlocks]
  · simp

theorem title_notin_pdfEducation (r : Resume) (t : String) :
    PBlock.para .title t ∉ pdfEducation r := by
  unfold pdfEducation
  split
  · simp [List.mem_flatten]
  · simp

theorem title_notin_pdfSkills (r : Resume) (t : String) :
    PBlock.para .title t ∉ pdfSkills r := by
  unfold pdfSkills
  split
  · rename_i h
    simp only [List.mem_cons]
    rintro (hx | hx)
    · exact absurd hx (by simp)
    · revert hx
      simp only [pdfSkillsBody, List.mem_flatten, List.mem_map]
      rintro ⟨l, ⟨c, hc, rfl⟩, hx⟩
      split at hx <;> simp at hx
  · simp

theorem pdf_title_iff (r : Resume) :
    (∃ t, PBlock.para .title t ∈ exportToPdfStory r) ↔
      truthy r.personal.full_name = true := by
  constructor
  · rintro ⟨t, ht⟩
    simp only [exportToPdfStory, List.mem_append, title_mem_pdfHeader,
               title_notin_pdfSummary, title_notin_pdfExperience,
               title_notin_pdfEducation, title_notin_pdfSkills,
               or_false] at ht
    exact ht.1
  · intro h
    exact ⟨getS r.personal.full_name,
           by simp [exportToPdfStory, List.mem_append, title_mem_pdfHeader, h]⟩

theorem dHeading_inj_iff (s t : String) : dHeading s = dHeading t ↔ s = t := by
  simp [dHeading]

theorem dHeading_ne_dPara (s t : String) : dHeading s ≠ dPara t := by
  unfold dHeading dPara
  split <;> simp

theorem dHeading_ne_contact (s t : String) :
    dHeading s ≠ { dPara t with centered := true } := by
  unfold dHeading dPara
  split <;> simp

theorem dHeading_ne_name (s n : String) :
    dHeading s ≠ ⟨[⟨n, true, some 18⟩], none, true⟩ := by
  simp [dHeading]

theorem dHeading_ne_job (s t : String) :
    dHeading s ≠ ⟨[⟨t, true, none⟩], none, false⟩ := by
  simp [dHeading]

theorem bullet_ne_dHeading (b s : String) :
    (⟨if b = "" then [] else [⟨b, false, none⟩], some "List Bullet", false⟩ : DPara) ≠ dHeading s := by
  split <;> simp [dHeading]

theorem eduPara_ne_dHeading (e : Education) (s : String) :
    (⟨docxEduRuns e, none, false⟩ : DPara) ≠ dHeading s := by
  simp [dHeading, docxEduRuns]

theorem skillPara_ne_dHeading (c : String × List String) (s : String) :
    (⟨[⟨c.1 ++ ": ", true, none⟩, ⟨String.intercalate ", " c.2, false, none⟩], none, false⟩ : DPara) ≠ dHeading s := by
  simp [dHeading]

theorem dheading_notin_docxHeader (p : Personal) (s : String) :
    dHeading s ∉ docxHeader p := by
  unfold docxHeader
  split
  · split <;>
      simp [dHeading_ne_name, dHeading_ne_contact, dHeading_ne_dPara]
  · simp

theorem dheading_mem_docxSummary (r : Resume) (s : String) :
    dHeading s ∈ docxSummary r ↔
      truthy r.summary = true ∧ s = "PROFESSIONAL SUMMARY" := by
  unfold docxSummary
  split
  · rename_i h
    simp [h, dHeading_ne_dPara, dHeading_inj_iff]
  · rename_i h
    simp [h]

theorem dheading_notin_docxExpParas (e : Experience) (s : String) :
    dHeading s ∉ docxExpParas e := by
  simp [docxExpParas, dHeading_ne_job, dHeading_ne_dPara, bullet_ne_dHeading]

theorem dheading_mem_docxExperience (r : Resume) (s : String) :
    dHeading s ∈ docxExperience r ↔
      r.work_experience ≠ [] ∧ s = "PROFESSIONAL EXPERIENCE" := by
  unfold docxExperience
  split
  · rename_i h
    simp [h, List.mem_flatten, dheading_notin_docxExpParas, dHeading_inj_iff]
  · rename_i h
    simp at h
    simp [h]

theorem dheading_mem_docxEducation (r : Resume) (s : String) :
    dHeading s ∈ docxEducation r ↔ r.education ≠ [] ∧ s = "EDUCATION" := by
  unfold docxEducation
  split
  · rename_i h
    simp only [List.mem_cons, List.mem_map, dHeading_inj_iff]
    constructor
    · rintro (rfl | ⟨e, he, hx⟩)
      · exact ⟨h, rfl⟩
      · exact absurd hx (eduPara_ne_dHeading e s)
    · rintro ⟨-, rfl⟩
      exact Or.inl rfl
  · rename_i h
    simp at h
    simp [h]

theorem dheading_notin_docxSkillsBody (sk : List (String × List String)) (s : String) :
    dHeading s ∉ docxSkillsBody sk := by
  simp only [docxSkillsBody, List.mem_flatten, List.mem_map]
  rintro ⟨l, ⟨c, hc, rfl⟩, hx⟩
  split at hx
  · simp only [List.mem_singleton] at hx
    exact absurd hx.symm (skillPara_ne_dHeading c s)
  · simp at hx

theorem dheading_mem_docxSkills (r : Resume) (s : String) :
    dHeading s ∈ docxSkills r ↔ r.skills ≠ [] ∧ s = "SKILLS" := by
  unfold docxSkills
  split
  · rename_i h
    simp [h, dheading_notin_docxSkillsBody, dHeading_inj_iff]
  · rename_i h
    simp at h
    simp [h]

theorem docx_heading_iff (r : Resume) (s : String) :
    dHeading s ∈ docxParagraphs r ↔
      (truthy r.summary = true ∧ s = "PROFESSIONAL SUMMARY") ∨
      (r.work_experience ≠ [] ∧ s = "PROFESSIONAL EXPERIENCE") ∨
      (r.education ≠ [] ∧ s = "EDUCATION") ∨
      (r.skills ≠ [] ∧ s = "SKILLS") := by
  simp [docxParagraphs, List.mem_append, dheading_notin_docxHeader,
        dheading_mem_docxSummary, dheading_mem_docxExperience,
        dheading_mem_docxEducation, dheading_mem_docxSkills]

theorem centered_docxSummary (r : Resume) (x : DPara) (hx : x ∈ docxSummary r) :
    x.centered = false := by
  unfold docxSummary at hx
  split at hx
  · simp only [List.mem_cons, List.mem_singleton, List.not_mem_nil, or_false] at hx
    rcases hx with rfl | rfl <;> rfl
  · simp at hx

theorem centered_docxExpParas (e : Experience) (x : DPara) (hx : x ∈ docxExpParas e) :
    x.centered = false := by
  simp only [docxExpParas, List.mem_append, List.mem_cons, List.mem_map,
             List.mem_singleton, List.not_mem_nil, or_false] at hx
  rcases hx with (((rfl | rfl) | ⟨b, hb, rfl⟩) | rfl) <;> rfl

theorem centered_docxExperience (r : Resume) (x : DPara) (hx : x ∈ docxExperience r) :
    x.centered = false := by
  unfold docxExperience at hx
  split at hx
  · simp only [List.mem_cons, List.mem_flatten, List.mem_map] at hx
    rcases hx with rfl | ⟨l, ⟨e, he, rfl⟩, hl⟩
    · rfl
    · exact centered_docxExpParas e x hl
  · simp at hx

theorem centered_docxEducation (r : Resume) (x : DPara) (hx : x ∈ docxEducation r) :
    x.centered = false := by
  unfold docxEducation at hx
  split at hx
  · simp only [List.mem_cons, List.mem_map] at hx
    rcases hx with rfl | ⟨e, he, rfl⟩ <;> rfl
  · simp at hx

theorem centered_docxSkills (r : Resume) (x : DPara) (hx : x ∈ docxSkills r) :
    x.centered = false := by
  unfold docxSkills at hx
  split at hx
  · simp only [List.mem_cons] at hx
    rcases hx with rfl | hx
    · rfl
    · simp only [docxSkillsBody, List.mem_flatten, List.mem_map] at hx
      obtain ⟨l, ⟨c, hc, rfl⟩, hl⟩ := hx
      split at hl
      · simp only [List.mem_singleton] at hl
        subst hl
        rfl
      · simp at hl
  · simp at hx

theorem docx_centered_iff (r : Resume) :
    (∃ x ∈ docxParagraphs r, x.centered = true) ↔
      truthy r.personal.full_name = true := by
  constructor
  · rintro ⟨x, hx, hc⟩
    by_contra h
    have h' : truthy r.personal.full_name = false := by
      revert h
      cases truthy r.personal.full_name <;> simp
    have hh : docxHeader r.personal = [] := by
      unfold docxHeader
      rw [h']
      simp
    rw [docxParagraphs, hh, List.nil_append] at hx
    simp only [List.mem_append] at hx
    rcases hx with ((hx | hx) | hx) | hx
    · rw [centered_docxSummary r x hx] at hc
      exact Bool.false_ne_true hc
    · rw [centered_docxExperience r x hx] at hc
      exact Bool.false_ne_true hc
    · rw [centered_docxEducation r x hx] at hc
      exact Bool.false_ne_true hc
    · rw [centered_docxSkills r x hx] at hc
      exact Bool.false_ne_true hc
  · intro h
    refine ⟨⟨[⟨getS r.personal.full_name, true, some 18⟩], none, true⟩, ?_, rfl⟩
    have : (⟨[⟨getS r.personal.full_name, true, some 18⟩], none, true⟩ : DPara) ∈ docxHeader r.personal := by
      unfold docxHeader
      rw [h]
      simp
    rw [docxParagraphs]
    simp only [List.mem_append]
    exact Or.inl (Or.inl (Or.inl (Or.inl this)))

theorem htmlSummaryPart_ne_iff (r : Resume) :
    htmlSummaryPart r ≠ "" ↔ truthy r.summary = true := by
  unfold htmlSummaryPart
  split
  · rename_i h
    simp only [h, iff_true]
    exact ne_empty_left _ _ (ne_empty_left _ _ (by decide))
  · rename_i h
    simp [h]

theorem htmlExpPart_ne_iff (r : Resume) :
    htmlExpPart r ≠ "" ↔ r.work_experience ≠ [] := by
  unfold htmlExpPart
  split
  · rename_i h
    exact iff_of_true (ne_empty_left _ _ (ne_empty_left _ _ (by decide))) h
  · rename_i h
    have h2 : r.work_experience = [] := not_not.mp h
    simp [h2]

theorem htmlEduPart_ne_iff (r : Resume) :
    htmlEduPart r ≠ "" ↔ r.education ≠ [] := by
  unfold htmlEduPart
  split
  · rename_i h
    exact iff_of_true (ne_empty_left _ _ (ne_empty_left _ _ (by decide))) h
  · rename_i h
    have h2 : r.education = [] := not_not.mp h
    simp [h2]

theorem htmlSkillsPart_ne_iff (r : Resume) :
    htmlSkillsPart r ≠ "" ↔ r.skills ≠ [] := by
  unfold htmlSkillsPart
  split
  · rename_i h
    exact iff_of_true (ne_empty_left _ _ (ne_empty_left _ _ (by decide))) h
  · rename_i h
    have h2 : r.skills = [] := not_not.mp h
    simp [h2]

theorem strIn_htmlHead_header (p : Personal) :
    strIn "<div class=\"header\">" (htmlHead p) := by
  unfold htmlHead
  apply strIn_appendR
  apply strIn_appendR
  apply strIn_appendR
  apply strIn_appendR
  apply strIn_appendR
  apply strIn_appendR
  apply strIn_appendR
  apply strIn_appendR
  apply strIn_appendL
  exact strInB_sound _ _ (by decide)

theorem strIn_html_header (r : Resume) :
    strIn "<div class=\"header\">" (exportToHtml r) := by
  unfold exportToHtml
  apply strIn_appendR
  apply strIn_appendR
  apply strIn_appendR
  apply strIn_appendR
  apply strIn_appendR
  apply strIn_appendR
  apply strIn_appendR
  exact strIn_htmlHead_header r.personal

/-- Claim C1, counterexample: the set of rendered sections is not
identical across the three formats. For a document whose personal record
holds only an email address, `export_to_pdf` and `export_to_docx` emit
nothing at all (the whole header, contact line included, is gated on the
full name being truthy), while `export_to_html` still renders its header
block, email included. -/
theorem C1_counterexample :
    exportToPdfStory docOnlyEmail = [] ∧
    docxParagraphs docOnlyEmail = [] ∧
    strInB "a@b.com" (exportToHtml docOnlyEmail) = true :=
  ⟨rfl, rfl, by decide⟩

/-- Claim C1, amended: section parity holds between the three renderers
for SUMMARY, EXPERIENCE, EDUCATION and SKILLS — each of those sections is
present (its heading emitted) in one format exactly when it is present in
the others, and the PDF and DOCX renderers also agree on the PERSONAL
header — but the HTML output always contains the header block (name and
contact line), regardless of the document, so PERSONAL parity with the
other two formats fails. -/
theorem C1_amended (r : Resume) :
    ((PBlock.para .heading "PROFESSIONAL SUMMARY" ∈ exportToPdfStory r) ↔
      (dHeading "PROFESSIONAL SUMMARY" ∈ docxParagraphs r)) ∧
    ((dHeading "PROFESSIONAL SUMMARY" ∈ docxParagraphs r) ↔ htmlSummaryPart r ≠ "") ∧
    ((PBlock.para .heading "PROFESSIONAL EXPERIENCE" ∈ exportToPdfStory r) ↔
      (dHeading "PROFESSIONAL EXPERIENCE" ∈ docxParagraphs r)) ∧
    ((dHeading "PROFESSIONAL EXPERIENCE" ∈ docxParagraphs r) ↔ htmlExpPart r ≠ "") ∧
    ((PBlock.para .heading "EDUCATION" ∈ exportToPdfStory r) ↔
      (dHeading "EDUCATION" ∈ docxParagraphs r)) ∧
    ((dHeading "EDUCATION" ∈ docxParagraphs r) ↔ htmlEduPart r ≠ "") ∧
    ((PBlock.para .heading "SKILLS" ∈ exportToPdfStory r) ↔
      (dHeading "SKILLS" ∈ docxParagraphs r)) ∧
    ((dHeading "SKILLS" ∈ docxParagraphs r) ↔ htmlSkillsPart r ≠ "") ∧
    ((∃ t, PBlock.para .title t ∈ exportToPdfStory r) ↔
      (∃ x ∈ docxParagraphs r, x.centered = true)) ∧
    strIn "<div class=\"header\">" (exportToHtml r) := by
  refine ⟨?_, ?_, ?_, ?_, ?_, ?_, ?_, ?_, ?_, strIn_html_header r⟩
  · simp [pdf_heading_iff, docx_heading_iff]
  · simp [docx_heading_iff, htmlSummaryPart_ne_iff]
  · simp [pdf_heading_iff, docx_heading_iff]
  · simp [docx_heading_iff, htmlExpPart_ne_iff]
  · simp [pdf_heading_iff, docx_heading_iff]
  · simp [docx_heading_iff, htmlEduPart_ne_iff]
  · simp [pdf_heading_iff, docx_heading_iff]
  · simp [docx_heading_iff, htmlSkillsPart_ne_iff]
  · rw [pdf_title_iff, docx_centered_iff]

/-- Claim C2, counterexample: on the specification scenario document
(`end_date` present but equal to the empty string) no renderer produces
`01/2020 to Present`. The PDF and DOCX date lines are `01/2020 to `, the
HTML date line is `01/2020 to  | `, and the marker string occurs nowhere
in the PDF story nor in the HTML output. -/
theorem C2_counterexample :
    pdfDateRange janeExp = "01/2020 to " ∧
    docxDateRange janeExp = "01/2020 to " ∧
    htmlExpDateLine janeExp = "01/2020 to  | " ∧
    strInB "01/2020 to Present" (exportToHtml janeDoc) = false ∧
    ((exportToPdfStory janeDoc).all (fun b =>
      match b with
      | .para _ t => !strInB "01/2020 to Present" t
      | .spacer _ _ => true)) = true ∧
    ((docxParagraphs janeDoc).all (fun p =>
      p.runs.all (fun ru => !strInB "01/2020 to Present" ru.text))) = true :=
  ⟨rfl, rfl, rfl, by decide, by decide, by decide⟩

/-- Claim C2, amended: the `Present` fallback applies only when the
`endDate` key is absent, not when it holds the empty string. With the key
absent all three date lines read `{startDate} to Present` (HTML appends
` | {location}`); with the key equal to the empty string they read
`{startDate} to ` instead. -/
theorem C2_amended (e : Experience) :
    (e.end_date = none →
      pdfDateRange e = getS e.start_date ++ " to Present" ∧
      docxDateRange e = getS e.start_date ++ " to Present" ∧
      htmlExpDateLine e = getS e.start_date ++ " to Present | " ++ getS e.location) ∧
    (e.end_date = some "" →
      pdfDateRange e = getS e.start_date ++ " to " ∧
      docxDateRange e = getS e.start_date ++ " to " ∧
      htmlExpDateLine e = getS e.start_date ++ " to  | " ++ getS e.location) := by
  have h1 : (" to " : String) ++ "Present" = " to Present" := rfl
  have h2 : (" to Present" : String) ++ " | " = " to Present | " := rfl
  have h3 : (" to " : String) ++ " | " = " to  | " := rfl
  constructor
  · intro h
    refine ⟨?_, ?_, ?_⟩
    · rw [pdfDateRange, h, Option.getD_none, String.append_assoc, h1]
    · rw [docxDateRange, h, Option.getD_none, String.append_assoc, h1]
    · rw [htmlExpDateLine, h, Option.getD_none,
          String.append_assoc (getS e.start_date) " to " "Present", h1,
          String.append_assoc (getS e.start_date) " to Present" " | ", h2]
  · intro h
    refine ⟨?_, ?_, ?_⟩
    · rw [pdfDateRange, h, Option.getD_some, String.append_empty]
    · rw [docxDateRange, h, Option.getD_some, String.append_empty]
    · rw [htmlExpDateLine, h, Option.getD_some, String.append_empty,
          String.append_assoc (getS e.start_date) " to " " | ", h3]

/-- Claim C2, amended, witness: with the key absent the PDF date line of a
January-2020 entry is `01/2020 to Present`; on the scenario entry (empty
string) the DOCX date line is `01/2020 to `. -/
theorem C2_amended_witness :
    pdfDateRange { start_date := some "01/2020" } = "01/2020 to Present" ∧
    docxDateRange janeExp = "01/2020 to " :=
  ⟨((C2_amended { start_date := some "01/2020" }).1 rfl).1.trans rfl,
   ((C2_amended janeExp).2 rfl).2.1.trans rfl⟩

theorem getS_of_falsy (o : Option String) (h : truthy o = false) : getS o = "" := by
  cases o with
  | none => rfl
  | some s =>
    simp only [truthy, Option.getD_some, bne_eq_false_iff_eq] at h
    simpa [getS] using h

theorem getD_resume_of_truthy (o : Option String) (h : truthy o = true) :
    o.getD "Resume" = getS o := by
  cases o with
  | none => simp [truthy] at h
  | some s => rfl

/-- Claim C3, counterexample: for a document whose personal record has
only a full name, the HTML output still contains a contact line — the
`div` of class `contact` is emitted unconditionally and holds the two
bare separators ` |  | `. PDF and DOCX do omit the contact line. -/
theorem C3_counterexample :
    strInB "<div class=\"contact\"> |  | </div>" (exportToHtml docOnlyName) = true ∧
    exportToPdfStory docOnlyName = [PBlock.para .title "Jane Doe", PBlock.spacer 1 12] ∧
    docxParagraphs docOnlyName = [⟨[⟨"Jane Doe", true, some 18⟩], none, true⟩, dPara ""] :=
  ⟨by decide, rfl, rfl⟩

/-- Claim C3, amended: for every document whose personal record has a
truthy full name and falsy email, phone and location, the PDF and DOCX
outputs contain a header with only the name and no contact line, but the
HTML output still emits the contact `div`, reduced to the separators
` |  | `. -/
theorem C3_amended (r : Resume)
    (hn : truthy r.personal.full_name = true)
    (he : truthy r.personal.email = false)
    (hp : truthy r.personal.phone = false)
    (hl : truthy r.personal.location = false) :
    pdfHeader r.personal = [PBlock.para .title (getS r.personal.full_name), PBlock.spacer 1 12] ∧
    docxHeader r.personal = [⟨[⟨getS r.personal.full_name, true, some 18⟩], none, true⟩, dPara ""] ∧
    htmlHead r.personal =
      (((htmlHeadA ++ getS r.personal.full_name) ++ htmlHeadB) ++ getS r.personal.full_name) ++
        "</div>\n                <div class=\"contact\"> |  | </div>\n        " ∧
    strIn "<div class=\"contact\"> |  | </div>" (exportToHtml r) := by
  have hc : pdfContactInfo r.personal = [] := by
    unfold pdfContactInfo
    rw [he, hp, hl]
    simp
  have hhead : htmlHead r.personal =
      (((htmlHeadA ++ getS r.personal.full_name) ++ htmlHeadB) ++ getS r.personal.full_name) ++
        "</div>\n                <div class=\"contact\"> |  | </div>\n        " := by
    unfold htmlHead
    rw [getD_resume_of_truthy _ hn, getS_of_falsy _ he, getS_of_falsy _ hp,
        getS_of_falsy _ hl, String.append_empty, String.append_empty, String.append_empty]
    rw [String.append_assoc _ htmlHeadC " | ",
        String.append_assoc _ (htmlHeadC ++ " | ") " | ",
        String.append_assoc _ ((htmlHeadC ++ " | ") ++ " | ") htmlHeadD]
    have hlit : ((htmlHeadC ++ " | ") ++ " | ") ++ htmlHeadD =
        "</div>\n                <div class=\"contact\"> |  | </div>\n        " := rfl
    rw [hlit]
  refine ⟨?_, ?_, hhead, ?_⟩
  · unfold pdfHeader
    rw [hn, hc]
    simp
  · unfold docxHeader
    rw [hn, hc]
    simp
  · unfold exportToHtml
    apply strIn_appendR
    apply strIn_appendR
    apply strIn_appendR
    apply strIn_appendR
    apply strIn_appendR
    apply strIn_appendR
    apply strIn_appendR
    rw [hhead]
    apply strIn_appendL
    exact strInB_sound _ _ (by decide)

/-- Claim C3, amended, witness: the amended statement instantiated on the
name-only document. -/
theorem C3_amended_witness :
    pdfHeader docOnlyName.personal =
      [PBlock.para .title (getS docOnlyName.personal.full_name), PBlock.spacer 1 12] ∧
    strIn "<div class=\"contact\"> |  | </div>" (exportToHtml docOnlyName) :=
  ⟨(C3_amended docOnlyName rfl rfl rfl rfl).1,
   (C3_amended docOnlyName rfl rfl rfl rfl).2.2.2⟩

/-- Claim C4, counterexample: `export_to_html` escapes nothing — for a
document whose full name contains `<script>`, the returned markup contains
`<script>` verbatim. -/
theorem C4_counterexample :
    strInB "<script>" (exportToHtml docScript) = true := by decide

/-- Claim C4, amended: the HTML renderer interpolates user-supplied field
values verbatim, with no escaping: whenever the personal full name
contains the substring `<script>`, so does the output of
`export_to_html`. -/
theorem C4_amended (r : Resume) (n : String)
    (hn : r.personal.full_name = some n)
    (hs : strIn "<script>" n) :
    strIn "<script>" (exportToHtml r) := by
  unfold exportToHtml
  apply strIn_appendR
  apply strIn_appendR
  apply strIn_appendR
  apply strIn_appendR
  apply strIn_appendR
  apply strIn_appendR
  apply strIn_appendR
  unfold htmlHead
  apply strIn_appendR
  apply strIn_appendR
  apply strIn_appendR
  apply strIn_appendR
  apply strIn_appendR
  apply strIn_appendR
  apply strIn_appendR
  apply strIn_appendL
  simpa [getS, hn] using hs

/-- Claim C4, amended, witness: instantiated on the script-bearing
document. -/
theorem C4_amended_witness : strIn "<script>" (exportToHtml docScript) :=
  C4_amended docScript "<script>alert(1)</script>" rfl
    ⟨"", "alert(1)</script>", by decide⟩

/-- Claim C5, counterexample: the location suffix is not composed
identically across formats. For an entry located in NYC the PDF title
line carries ` (NYC)` but the DOCX and HTML title lines do not mention
the location at all. -/
theorem C5_counterexample :
    pdfJobHeader expLoc = "<b>Engineer</b> - Acme (NYC)" ∧
    docxJobText expLoc = "Engineer - Acme" ∧
    htmlExpTitleLine expLoc =
      "<span class=\"job-title\">Engineer</span> - <span class=\"company\">Acme</span>" ∧
    strInB "(NYC)" (docxJobText expLoc) = false ∧
    strInB "(NYC)" (htmlExpTitleLine expLoc) = false :=
  ⟨rfl, rfl, rfl, by decide, by decide⟩

/-- Claim C5, amended: only the PDF renderer appends ` ({location})` to
the title line (exactly when the location is truthy); the DOCX title run
is always `{jobTitle} - {company}` and both the DOCX and HTML title lines
are insensitive to the location field — the HTML renderer instead appends
the location to its date line after a pipe. -/
theorem C5_amended (e : Experience) :
    (truthy e.location = true →
      pdfJobHeader e =
        "<b>" ++ getS e.job_title ++ "</b> - " ++ getS e.company ++
          " (" ++ getS e.location ++ ")") ∧
    (truthy e.location = false →
      pdfJobHeader e = "<b>" ++ getS e.job_title ++ "</b> - " ++ getS e.company) ∧
    docxJobText e = getS e.job_title ++ " - " ++ getS e.company ∧
    (∀ loc, docxJobText { e with location := loc } = docxJobText e) ∧
    (∀ loc, htmlExpTitleLine { e with location := loc } = htmlExpTitleLine e) ∧
    strIn (" | " ++ getS e.location) (htmlExpDateLine e) := by
  refine ⟨?_, ?_, rfl, fun loc => rfl, fun loc => rfl, ?_⟩
  · intro h
    simp [pdfJobHeader, h]
  · intro h
    simp [pdfJobHeader, h]
  · refine ⟨getS e.start_date ++ " to " ++ e.end_date.getD "Present", "", ?_⟩
    rw [String.append_empty, htmlExpDateLine, String.append_assoc]

/-- Claim C5, amended, witness: instantiated on the NYC entry. -/
theorem C5_amended_witness :
    pdfJobHeader expLoc =
      "<b>" ++ getS expLoc.job_title ++ "</b> - " ++ getS expLoc.company ++
        " (" ++ getS expLoc.location ++ ")" ∧
    docxJobText expLoc = getS expLoc.job_title ++ " - " ++ getS expLoc.company :=
  ⟨(C5_amended expLoc).1 rfl, (C5_amended expLoc).2.2.1⟩

/-- Claim C6, counterexample: for an education entry with no major and no
graduation date, PDF and DOCX render `BS - MIT` (fragments suppressed),
but the HTML education line is `BS in  - MIT` — the ` in ` fragment is
emitted even though the major is empty — and HTML also emits a dangling
`Graduated: ` line. -/
theorem C6_counterexample :
    pdfEduText eduNoMajor = "<b>BS</b> - MIT" ∧
    docxEduText eduNoMajor = "BS - MIT" ∧
    htmlEduTitle eduNoMajor = "BS in  - MIT" ∧
    htmlEduTitle eduNoMajor ≠ "BS - MIT" ∧
    htmlEduDate eduNoMajor = "Graduated: " :=
  ⟨rfl, by decide, rfl, by decide, rfl⟩

/-- Claim C6, amended: PDF and DOCX compose the education line as
`{degree}[ in {major}] - {school}[ (graduationDate)]` with each bracketed
fragment present exactly when its field is truthy, in the same fixed
order (PDF additionally bolds the degree with `<b>` markup); the HTML
renderer instead always interpolates `{degree} in {major} - {school}`
(the ` in ` fragment unconditional) and always emits a separate
`Graduated: {graduationDate}` line. -/
theorem C6_amended (e : Education) :
    pdfEduText e =
      "<b>" ++ getS e.degree ++ "</b>" ++
      (if truthy e.major then " in " ++ getS e.major else "") ++
      (" - " ++ getS e.school) ++
      (if truthy e.graduation_date then " (" ++ getS e.graduation_date ++ ")" else "") ∧
    docxEduText e =
      getS e.degree ++
      (if truthy e.major then " in " ++ getS e.major else "") ++
      (" - " ++ getS e.school) ++
      (if truthy e.graduation_date then " (" ++ getS e.graduation_date ++ ")" else "") ∧
    htmlEduTitle e = getS e.degree ++ " in " ++ getS e.major ++ " - " ++ getS e.school ∧
    htmlEduDate e = "Graduated: " ++ getS e.graduation_date := by
  have hnil : ("" : String).data = [] := rfl
  refine ⟨?_, ?_, rfl, rfl⟩
  · apply String.ext
    rcases h1 : truthy e.major <;> rcases h2 : truthy e.graduation_date <;>
      simp [pdfEduText, h1, h2, String.data_append, hnil]
  · apply String.ext
    rcases h1 : truthy e.major <;> rcases h2 : truthy e.graduation_date <;>
      simp [docxEduText, docxEduRuns, h1, h2, String.data_append, hnil]

theorem pdfSkillsBody_erase (pre post : List (String × List String)) (c : String) :
    pdfSkillsBody (pre ++ (c, []) :: post) = pdfSkillsBody (pre ++ post) := by
  unfold pdfSkillsBody
  simp [List.map_append, List.flatten_append]

theorem docxSkillsBody_erase (pre post : List (String × List String)) (c : String) :
    docxSkillsBody (pre ++ (c, []) :: post) = docxSkillsBody (pre ++ post) := by
  unfold docxSkillsBody
  simp [List.map_append, List.flatten_append]

theorem htmlSkillsBody_erase (pre post : List (String × List String)) (c : String) :
    htmlSkillsBody (pre ++ (c, []) :: post) = htmlSkillsBody (pre ++ post) := by
  apply String.ext
  unfold htmlSkillsBody
  simp [String.data_join, List.map_append, List.flatten_append]

/-- Claim C7, confirmed: a skills category with an empty skill list leaves
no visible trace in any of the three outputs — the per-category bodies are
those of the mapping with the category deleted, and (as long as some other
category remains, so that the SKILLS heading gate does not change) each of
the three whole outputs equals the output for the document with that
category deleted. -/
theorem C7_skill_category_suppression (r : Resume)
    (pre post : List (String × List String)) (c : String)
    (hsk : r.skills = pre ++ (c, []) :: post) :
    pdfSkillsBody r.skills = pdfSkillsBody (pre ++ post) ∧
    docxSkillsBody r.skills = docxSkillsBody (pre ++ post) ∧
    htmlSkillsBody r.skills = htmlSkillsBody (pre ++ post) ∧
    (pre ++ post ≠ [] →
      exportToPdfStory r = exportToPdfStory { r with skills := pre ++ post } ∧
      docxParagraphs r = docxParagraphs { r with skills := pre ++ post } ∧
      exportToHtml r = exportToHtml { r with skills := pre ++ post }) := by
  refine ⟨hsk ▸ pdfSkillsBody_erase pre post c,
          hsk ▸ docxSkillsBody_erase pre post c,
          hsk ▸ htmlSkillsBody_erase pre post c, ?_⟩
  intro hne
  have hgate : pre ++ (c, []) :: post ≠ [] := by simp
  have hpdf : pdfSkills r = pdfSkills { r with skills := pre ++ post } := by
    unfold pdfSkills
    rw [hsk]
    show (if pre ++ (c, []) :: post ≠ [] then _ else _) =
         (if pre ++ post ≠ [] then _ else _)
    rw [if_pos hgate, if_pos hne]
    rw [pdfSkillsBody_erase pre post c]
  have hdocx : docxSkills r = docxSkills { r with skills := pre ++ post } := by
    unfold docxSkills
    rw [hsk]
    show (if pre ++ (c, []) :: post ≠ [] then _ else _) =
         (if pre ++ post ≠ [] then _ else _)
    rw [if_pos hgate, if_pos hne]
    rw [docxSkillsBody_erase pre post c]
  have hhtml : htmlSkillsPart r = htmlSkillsPart { r with skills := pre ++ post } := by
    unfold htmlSkillsPart
    rw [hsk]
    show (if pre ++ (c, []) :: post ≠ [] then _ else _) =
         (if pre ++ post ≠ [] then _ else _)
    rw [if_pos hgate, if_pos hne]
    rw [htmlSkillsBody_erase pre post c]
  refine ⟨?_, ?_, ?_⟩
  · show pdfHeader r.personal ++ pdfSummary r ++ pdfExperience r ++ pdfEducation r ++ pdfSkills r = _
    rw [hpdf]
    rfl
  · show docxHeader r.personal ++ docxSummary r ++ docxExperience r ++ docxEducation r ++ docxSkills r = _
    rw [hdocx]
    rfl
  · show htmlHead r.personal ++ htmlLinks r.personal ++ "</div>" ++ htmlSummaryPart r ++
      htmlExpPart r ++ htmlEduPart r ++ htmlSkillsPart r ++ "</body></html>" = _
    rw [hhtml]
    rfl

/-- Claim C7, witness: instantiated on a concrete mapping with an empty
`Tools` category between two non-empty categories. -/
theorem C7_witness :
    pdfSkillsBody docSkillsMix.skills = pdfSkillsBody docSkillsMixClean.skills ∧
    exportToHtml docSkillsMix = exportToHtml docSkillsMixClean :=
  ⟨(C7_skill_category_suppression docSkillsMix [("Languages", ["Python"])]
      [("Cloud", ["AWS"])] "Tools" rfl).1,
   ((C7_skill_category_suppression docSkillsMix [("Languages", ["Python"])]
      [("Cloud", ["AWS"])] "Tools" rfl).2.2.2 (by decide)).2.2⟩

/-- Claim C9, confirmed: rendering is a pure projection. Each of the three
export functions only reads the document (all accesses in the source are
`get`/subscript reads; nothing is ever assigned into `resume_data`), so
the state-passing reading of each renderer returns the document unchanged
together with exactly the rendered output. -/
theorem C9_no_mutation (r : Resume) :
    (exportToPdfSt r).2 = r ∧ (exportToPdfSt r).1 = exportToPdfStory r ∧
    (exportToDocxSt r).2 = r ∧ (exportToDocxSt r).1 = docxParagraphs r ∧
    (exportToHtmlSt r).2 = r ∧ (exportToHtmlSt r).1 = exportToHtml r :=
  ⟨rfl, rfl, rfl, rfl, rfl, rfl⟩

theorem pdfSkillsBody_all_empty (sk : List (String × List String))
    (h : ∀ c ∈ sk, c.2 = ([] : List String)) : pdfSkillsBody sk = [] := by
  induction sk with
  | nil => rfl
  | cons c rest ih =>
    have hc : c.2 = [] := h c (List.mem_cons_self c rest)
    simp only [pdfSkillsBody, List.map_cons, List.flatten_cons, hc]
    simp only [ne_eq, not_true_eq_false, if_false, List.nil_append]
    exact ih (fun x hx => h x (List.mem_cons_of_mem c hx))

theorem docxSkillsBody_all_empty (sk : List (String × List String))
    (h : ∀ c ∈ sk, c.2 = ([] : List String)) : docxSkillsBody sk = [] := by
  induction sk with
  | nil => rfl
  | cons c rest ih =>
    have hc : c.2 = [] := h c (List.mem_cons_self c rest)
    simp only [docxSkillsBody, List.map_cons, List.flatten_cons, hc]
    simp only [ne_eq, not_true_eq_false, if_false, List.nil_append]
    exact ih (fun x hx => h x (List.mem_cons_of_mem c hx))

theorem htmlSkillsBody_all_empty (sk : List (String × List String))
    (h : ∀ c ∈ sk, c.2 = ([] : List String)) : htmlSkillsBody sk = "" := by
  induction sk with
  | nil => rfl
  | cons c rest ih =>
    have hc : c.2 = [] := h c (List.mem_cons_self c rest)
    have ih' := ih (fun x hx => h x (List.mem_cons_of_mem c hx))
    apply String.ext
    have hd := congrArg String.data ih'
    simp only [htmlSkillsBody, List.map_cons, String.data_join, List.map_cons,
               List.flatten_cons, hc] at *
    simpa using hd

/-- Claim C10, confirmed: when the skills mapping is non-empty but every
category has an empty skill list, all three renderers still emit the
SKILLS section heading, with no category line under it — the heading is
gated on the mapping being non-empty, not on any category having
skills, in every format. -/
theorem C10_skills_heading (r : Resume) (hne : r.skills ≠ [])
    (hall : ∀ c ∈ r.skills, c.2 = ([] : List String)) :
    PBlock.para .heading "SKILLS" ∈ exportToPdfStory r ∧
    dHeading "SKILLS" ∈ docxParagraphs r ∧
    pdfSkills r = [PBlock.para .heading "SKILLS"] ∧
    docxSkills r = [dHeading "SKILLS"] ∧
    htmlSkillsPart r =
      "<div class=\"section\"><div class=\"section-title\">Skills</div></div>" := by
  refine ⟨(pdf_heading_iff r "SKILLS").mpr (Or.inr (Or.inr (Or.inr ⟨hne, rfl⟩))),
          (docx_heading_iff r "SKILLS").mpr (Or.inr (Or.inr (Or.inr ⟨hne, rfl⟩))),
          ?_, ?_, ?_⟩
  · unfold pdfSkills
    rw [if_pos hne, pdfSkillsBody_all_empty r.skills hall]
  · unfold docxSkills
    rw [if_pos hne, docxSkillsBody_all_empty r.skills hall]
  · unfold htmlSkillsPart
    rw [if_pos hne, htmlSkillsBody_all_empty r.skills hall, String.append_empty]
    exact rfl

/-- Claim C10, witness: instantiated on a mapping with two empty
categories. -/
theorem C10_witness :
    PBlock.para .heading "SKILLS" ∈ exportToPdfStory docSkillsAllEmpty ∧
    htmlSkillsPart docSkillsAllEmpty =
      "<div class=\"section\"><div class=\"section-title\">Skills</div></div>" :=
  ⟨(C10_skills_heading docSkillsAllEmpty (by decide) (by decide)).1,
   (C10_skills_heading docSkillsAllEmpty (by decide) (by decide)).2.2.2.2⟩

theorem ok_bind {α β : Type} (a : α) (f : α → Except String β) :
    (Except.ok a >>= f) = f a := rfl

theorem optE_none (k : String) : optE k none = [] := rfl

theorem lookup_optE_found (k s : String) (rest : List (String × Dyn)) :
    (optE k (some s) ++ rest).lookup k = some (Dyn.str s) := by
  simp [optE, List.lookup]

theorem lookup_optE_skip (k k' : String) (o : Option String)
    (rest : List (String × Dyn)) (h : (k == k') = false) :
    (optE k' o ++ rest).lookup k = rest.lookup k := by
  cases o <;> simp [optE, List.lookup, h]

theorem lookup_optE_last (k k' : String) (o : Option String) (h : (k == k') = false) :
    (optE k' o).lookup k = none := by
  cases o <;> simp [optE, List.lookup, h]

theorem truthyD_opt_pynone (o : Option String) :
    truthyD (match o with | some s => Dyn.str s | none => Dyn.pynone) = truthy o := by
  cases o <;> rfl

theorem pyStr_str (s : String) : pyStr (Dyn.str s) = s := rfl

theorem pyJoinItems_strs (l : List String) :
    pyJoinItems (l.map Dyn.str) = .ok l := by
  induction l with
  | nil => rfl
  | cons s rest ih => simp [pyJoinItems, ih, ok_bind]

theorem mapM_ok {α γ β : Type} (enc : α → γ) (f : γ → Except String β) (out : α → β)
    (h : ∀ a, f (enc a) = .ok (out a)) (l : List α) :
    (l.map enc).mapM f = .ok (l.map out) := by
  induction l with
  | nil => rfl
  | cons a rest ih =>
    rw [List.map_cons, List.mapM_cons, h a, ok_bind, ih, ok_bind, List.map_cons]
    rfl

theorem pyGet_p_full_name (p : Personal) (dflt : Dyn) :
    pyGet (personalToDyn p) "full_name" dflt =
      .ok (match p.full_name with | some s => Dyn.str s | none => dflt) := by
  unfold pyGet personalToDyn
  cases p.full_name with
  | some s => simp [List.append_assoc, lookup_optE_found]
  | none =>
    simp only [optE_none, List.nil_append, List.append_assoc]
    rw [lookup_optE_skip _ _ _ _ (by decide), lookup_optE_skip _ _ _ _ (by decide),
        lookup_optE_skip _ _ _ _ (by decide), lookup_optE_skip _ _ _ _ (by decide),
        lookup_optE_last _ _ _ (by decide)]
    rfl

theorem pySub_p_full_name (p : Personal) (s : String) (h : p.full_name = some s) :
    pySub (personalToDyn p) "full_name" = .ok (.str s) := by
  unfold pySub personalToDyn
  rw [h]
  simp [List.append_assoc, lookup_optE_found]

theorem pyGet_p_email (p : Personal) (dflt : Dyn) :
    pyGet (personalToDyn p) "email" dflt =
      .ok (match p.email with | some s => Dyn.str s | none => dflt) := by
  unfold pyGet personalToDyn
  simp only [List.append_assoc]
  rw [lookup_optE_skip _ _ _ _ (by decide)]
  cases p.email with
  | some s => simp [lookup_optE_found]
  | none =>
    simp only [optE_none, List.nil_append]
    rw [lookup_optE_skip _ _ _ _ (by decide), lookup_optE_skip _ _ _ _ (by decide),
        lookup_optE_skip _ _ _ _ (by decide), lookup_optE_last _ _ _ (by decide)]
    rfl

theorem pySub_p_email (p : Personal) (s : String) (h : p.email = some s) :
    pySub (personalToDyn p) "email" = .ok (.str s) := by
  unfold pySub personalToDyn
  simp only [List.append_assoc]
  rw [lookup_optE_skip _ _ _ _ (by decide), h, lookup_optE_found]

theorem pyGet_p_phone (p : Personal) (dflt : Dyn) :
    pyGet (personalToDyn p) "phone" dflt =
      .ok (match p.phone with | some s => Dyn.str s | none => dflt) := by
  unfold pyGet personalToDyn
  simp only [List.append_assoc]
  rw [lookup_optE_skip _ _ _ _ (by decide), lookup_optE_skip _ _ _ _ (by decide)]
  cases p.phone with
  | some s => simp [lookup_optE_found]
  | none =>
    simp only [optE_none, List.nil_append]
    rw [lookup_optE_skip _ _ _ _ (by decide), lookup_optE_skip _ _ _ _ (by decide),
        lookup_optE_last _ _ _ (by decide)]
    rfl

theorem pySub_p_phone (p : Personal) (s : String) (h : p.phone = some s) :
    pySub (personalToDyn p) "phone" = .ok (.str s) := by
  unfold pySub personalToDyn
  simp only [List.append_assoc]
  rw [lookup_optE_skip _ _ _ _ (by decide), lookup_optE_skip _ _ _ _ (by decide),
      h, lookup_optE_found]

theorem pyGet_p_location (p : Personal) (dflt : Dyn) :
    pyGet (personalToDyn p) "location" dflt =
      .ok (match p.location with | some s => Dyn.str s | none => dflt) := by
  unfold pyGet personalToDyn
  simp only [List.append_assoc]
  rw [lookup_optE_skip _ _ _ _ (by decide), lookup_optE_skip _ _ _ _ (by decide),
      lookup_optE_skip _ _ _ _ (by decide)]
  cases p.location with
  | some s => simp [lookup_optE_found]
  | none =>
    simp only [optE_none, List.nil_append]
    rw [lookup_optE_skip _ _ _ _ (by decide), lookup_optE_last _ _ _ (by decide)]
    rfl

theorem pySub_p_location (p : Personal) (s : String) (h : p.location = some s) :
    pySub (personalToDyn p) "location" = .ok (.str s) := by
  unfold pySub personalToDyn
  simp only [List.append_assoc]
  rw [lookup_optE_skip _ _ _ _ (by decide), lookup_optE_skip _ _ _ _ (by decide),
      lookup_optE_skip _ _ _ _ (by decide), h, lookup_optE_found]

theorem pyGet_e_job_title (e : Experience) :
    pyGet (expToDyn e) "job_title" (.str "") = .ok (.str (getS e.job_title)) := by
  unfold pyGet expToDyn
  cases e.job_title with
  | some s => simp [List.append_assoc, lookup_optE_found, getS]
  | none =>
    simp only [optE_none, List.nil_append, List.append_assoc]
    rw [lookup_optE_skip _ _ _ _ (by decide), lookup_optE_skip _ _ _ _ (by decide),
        lookup_optE_skip _ _ _ _ (by decide), lookup_optE_skip _ _ _ _ (by decide)]
    rfl

theorem pyGet_e_company (e : Experience) :
    pyGet (expToDyn e) "company" (.str "") = .ok (.str (getS e.company)) := by
  unfold pyGet expToDyn
  simp only [List.append_assoc]
  rw [lookup_optE_skip _ _ _ _ (by decide)]
  cases e.company with
  | some s => simp [lookup_optE_found, getS]
  | none =>
    simp only [optE_none, List.nil_append]
    rw [lookup_optE_skip _ _ _ _ (by decide), lookup_optE_skip _ _ _ _ (by decide),
        lookup_optE_skip _ _ _ _ (by decide)]
    rfl

theorem pyGet_e_location (e : Experience) (dflt : Dyn) :
    pyGet (expToDyn e) "location" dflt =
      .ok (match e.location with | some s => Dyn.str s | none => dflt) := by
  unfold pyGet expToDyn
  simp only [List.append_assoc]
  rw [lookup_optE_skip _ _ _ _ (by decide), lookup_optE_skip _ _ _ _ (by decide)]
  cases e.location with
  | some s => simp [lookup_optE_found]
  | none =>
    simp only [optE_none, List.nil_append]
    rw [lookup_optE_skip _ _ _ _ (by decide), lookup_optE_skip _ _ _ _ (by decide)]
    rfl

theorem pySub_e_location (e : Experience) (s : String) (h : e.location = some s) :
    pySub (expToDyn e) "location" = .ok (.str s) := by
  unfold pySub expToDyn
  simp only [List.append_assoc]
  rw [lookup_optE_skip _ _ _ _ (by decide), lookup_optE_skip _ _ _ _ (by decide),
      h, lookup_optE_found]

theorem pyGet_e_start_date (e : Experience) :
    pyGet (expToDyn e) "start_date" (.str "") = .ok (.str (getS e.start_date)) := by
  unfold pyGet expToDyn
  simp only [List.append_assoc]
  rw [lookup_optE_skip _ _ _ _ (by decide), lookup_optE_skip _ _ _ _ (by decide),
      lookup_optE_skip _ _ _ _ (by decide)]
  cases e.start_date with
  | some s => simp [lookup_optE_found, getS]
  | none =>
    simp only [optE_none, List.nil_append]
    rw [lookup_optE_skip _ _ _ _ (by decide)]
    rfl

theorem pyGet_e_end_date (e : Experience) :
    pyGet (expToDyn e) "end_date" (.str "Present") =
      .ok (.str (e.end_date.getD "Present")) := by
  unfold pyGet expToDyn
  simp only [List.append_assoc]
  rw [lookup_optE_skip _ _ _ _ (by decide), lookup_optE_skip _ _ _ _ (by decide),
      lookup_optE_skip _ _ _ _ (by decide), lookup_optE_skip _ _ _ _ (by decide)]
  cases e.end_date with
  | some s => simp [lookup_optE_found]
  | none => rfl

theorem pyGet_e_bullets (e : Experience) (dflt : Dyn) :
    pyGet (expToDyn e) "bullets" dflt = .ok (.list (e.bullets.map Dyn.str)) := by
  unfold pyGet expToDyn
  simp only [List.append_assoc]
  rw [lookup_optE_skip _ _ _ _ (by decide), lookup_optE_skip _ _ _ _ (by decide),
      lookup_optE_skip _ _ _ _ (by decide), lookup_optE_skip _ _ _ _ (by decide),
      lookup_optE_skip _ _ _ _ (by decide)]
  rfl

theorem pyGet_d_degree (e : Education) :
    pyGet (eduToDyn e) "degree" (.str "") = .ok (.str (getS e.degree)) := by
  unfold pyGet eduToDyn
  cases e.degree with
  | some s => simp [List.append_assoc, lookup_optE_found, getS]
  | none =>
    simp only [optE_none, List.nil_append, List.append_assoc]
    rw [lookup_optE_skip _ _ _ _ (by decide), lookup_optE_skip _ _ _ _ (by decide),
        lookup_optE_skip _ _ _ _ (by decide), lookup_optE_skip _ _ _ _ (by decide),
        lookup_optE_last _ _ _ (by decide)]
    rfl

theorem pyGet_d_major (e : Education) (dflt : Dyn) :
    pyGet (eduToDyn e) "major" dflt =
      .ok (match e.major with | some s => Dyn.str s | none => dflt) := by
  unfold pyGet eduToDyn
  simp only [List.append_assoc]
  rw [lookup_optE_skip _ _ _ _ (by decide)]
  cases e.major with
  | some s => simp [lookup_optE_found]
  | none =>
    simp only [optE_none, List.nil_append]
    rw [lookup_optE_skip _ _ _ _ (by decide), lookup_optE_skip _ _ _ _ (by decide),
        lookup_optE_skip _ _ _ _ (by decide), lookup_optE_last _ _ _ (by decide)]
    rfl

theorem pySub_d_major (e : Education) (s : String) (h : e.major = some s) :
    pySub (eduToDyn e) "major" = .ok (.str s) := by
  unfold pySub eduToDyn
  simp only [List.append_assoc]
  rw [lookup_optE_skip _ _ _ _ (by decide), h, lookup_optE_found]

theorem pyGet_d_school (e : Education) :
    pyGet (eduToDyn e) "school" (.str "") = .ok (.str (getS e.school)) := by
  unfold pyGet eduToDyn
  simp only [List.append_assoc]
  rw [lookup_optE_skip _ _ _ _ (by decide), lookup_optE_skip _ _ _ _ (by decide)]
  cases e.school with
  | some s => simp [lookup_optE_found, getS]
  | none =>
    simp only [optE_none, List.nil_append]
    rw [lookup_optE_skip _ _ _ _ (by decide), lookup_optE_skip _ _ _ _ (by decide),
        lookup_optE_last _ _ _ (by decide)]
    rfl

theorem pyGet_d_graduation_date (e : Education) (dflt : Dyn) :
    pyGet (eduToDyn e) "graduation_date" dflt =
      .ok (match e.graduation_date with | some s => Dyn.str s | none => dflt) := by
  unfold pyGet eduToDyn
  simp only [List.append_assoc]
  rw [lookup_optE_skip _ _ _ _ (by decide), lookup_optE_skip _ _ _ _ (by decide),
      lookup_optE_skip _ _ _ _ (by decide)]
  cases e.graduation_date with
  | some s => simp [lookup_optE_found]
  | none =>
    simp only [optE_none, List.nil_append]
    rw [lookup_optE_skip _ _ _ _ (by decide), lookup_optE_last _ _ _ (by decide)]
    rfl

theorem pySub_d_graduation_date (e : Education) (s : String)
    (h : e.graduation_date = some s) :
    pySub (eduToDyn e) "graduation_date" = .ok (.str s) := by
  unfold pySub eduToDyn
  simp only [List.append_assoc]
  rw [lookup_optE_skip _ _ _ _ (by decide), lookup_optE_skip _ _ _ _ (by decide),
      lookup_optE_skip _ _ _ _ (by decide), h, lookup_optE_found]

theorem pyGet_rd_personal (r : Resume) (dflt : Dyn) :
    pyGet (resumeToDyn r) "personal" dflt = .ok (personalToDyn r.personal) := by
  unfold pyGet resumeToDyn
  simp [List.lookup]

theorem pyGet_rd_summary (r : Resume) (dflt : Dyn) :
    pyGet (resumeToDyn r) "summary" dflt =
      .ok (match r.summary with | some s => Dyn.str s | none => dflt) := by
  unfold pyGet resumeToDyn
  cases r.summary with
  | some s => simp [List.lookup, List.append_assoc, lookup_optE_found]
  | none => simp [List.lookup, optE_none]

theorem pySub_rd_summary (r : Resume) (s : String) (h : r.summary = some s) :
    pySub (resumeToDyn r) "summary" = .ok (.str s) := by
  unfold pySub resumeToDyn
  rw [h]
  simp [List.lookup, List.append_assoc, lookup_optE_found]

theorem pyGet_rd_we (r : Resume) (dflt : Dyn) :
    pyGet (resumeToDyn r) "work_experience" dflt =
      .ok (.list (r.work_experience.map expToDyn)) := by
  unfold pyGet resumeToDyn
  cases r.summary <;> simp [List.lookup, optE]

theorem pyGet_rd_education (r : Resume) (dflt : Dyn) :
    pyGet (resumeToDyn r) "education" dflt =
      .ok (.list (r.education.map eduToDyn)) := by
  unfold pyGet resumeToDyn
  cases r.summary <;> simp [List.lookup, optE]

theorem pyGet_rd_skills (r : Resume) (dflt : Dyn) :
    pyGet (resumeToDyn r) "skills" dflt =
      .ok (.dict (r.skills.map (fun c => (c.1, Dyn.list (c.2.map Dyn.str))))) := by
  unfold pyGet resumeToDyn
  cases r.summary <;> simp [List.lookup, optE]

theorem pure_ok {α : Type} (a : α) : (pure a : Except String α) = .ok a := rfl

theorem dynContactField_eq (personal : Dyn) (k : String) (o : Option String)
    (hget : pyGet personal k .pynone =
      .ok (match o with | some s => Dyn.str s | none => Dyn.pynone))
    (hsub : ∀ s, o = some s → pySub personal k = .ok (.str s)) :
    dynContactField personal k =
      .ok (if truthy o then [Dyn.str (getS o)] else []) := by
  unfold dynContactField
  rw [hget, ok_bind]
  cases o with
  | none => rfl
  | some s =>
    simp only [truthyD, truthy, getS, Option.getD_some]
    split
    · rw [hsub s rfl, ok_bind]
      rfl
    · rfl

theorem dynContactInfo_refines (p : Personal) :
    dynContactInfo (personalToDyn p) = .ok ((pdfContactInfo p).map Dyn.str) := by
  unfold dynContactInfo
  rw [dynContactField_eq _ _ p.email (pyGet_p_email p _) (fun s h => pySub_p_email p s h),
      ok_bind,
      dynContactField_eq _ _ p.phone (pyGet_p_phone p _) (fun s h => pySub_p_phone p s h),
      ok_bind,
      dynContactField_eq _ _ p.location (pyGet_p_location p _) (fun s h => pySub_p_location p s h),
      ok_bind]
  simp [pdfContactInfo, List.map_append, apply_ite (List.map Dyn.str), pure_ok]

theorem pdfDynHeader_refines (p : Personal) :
    pdfDynHeader (personalToDyn p) = .ok (pdfHeader p) := by
  unfold pdfDynHeader pdfHeader
  rw [pyGet_p_full_name, ok_bind, truthyD_opt_pynone]
  cases hf : p.full_name with
  | none => simp [truthy, pure_ok]
  | some s =>
    cases ht : truthy (some s) with
    | false => simp [ht, pure_ok]
    | true =>
      simp only [ht, if_true]
      rw [pySub_p_full_name p s hf, ok_bind, dynContactInfo_refines, ok_bind]
      cases hc : pdfContactInfo p with
      | nil => simp [pyStr, getS, pure_ok, ok_bind]
      | cons a rest =>
        simp only [List.map_cons, List.isEmpty_cons]
        have hj := pyJoinItems_strs (a :: rest)
        simp only [List.map_cons] at hj
        rw [if_neg (by simp), hj, ok_bind]
        simp [pyStr, getS, pure_ok, ok_bind]

theorem docxDynHeader_refines (p : Personal) :
    docxDynHeader (personalToDyn p) = .ok (docxHeader p) := by
  unfold docxDynHeader docxHeader
  rw [pyGet_p_full_name, ok_bind, truthyD_opt_pynone]
  cases hf : p.full_name with
  | none => simp [truthy, pure_ok]
  | some s =>
    cases ht : truthy (some s) with
    | false => simp [ht, pure_ok]
    | true =>
      simp only [ht, if_true]
      rw [pySub_p_full_name p s hf, ok_bind, dynContactInfo_refines, ok_bind]
      cases hc : pdfContactInfo p with
      | nil => simp [pyStr, getS, pure_ok, ok_bind]
      | cons a rest =>
        simp only [List.map_cons, List.isEmpty_cons]
        have hj := pyJoinItems_strs (a :: rest)
        simp only [List.map_cons] at hj
        rw [if_neg (by simp), hj, ok_bind]
        simp [pyStr, getS, pure_ok, ok_bind]

theorem pureE_bind {α β : Type} (a : α) (f : α → Except String β) :
    ((pure a : Except String α) >>= f) = f a := rfl

theorem pdfDynExpOne_refines (e : Experience) :
    pdfDynExpOne (expToDyn e) = .ok (pdfExpBlocks e) := by
  unfold pdfDynExpOne pdfExpBlocks pdfJobHeader pdfDateRange
  rw [pyGet_e_job_title, ok_bind, pyGet_e_company, ok_bind,
      pyGet_e_location, ok_bind, truthyD_opt_pynone]
  cases hl : e.location with
  | none =>
    simp [truthy, pureE_bind, ok_bind, pure_ok, pyGet_e_start_date,
          pyGet_e_end_date, pyGet_e_bullets, pyIter, pyStr, getS,
          List.map_map, Function.comp_def, String.append_assoc]
  | some s =>
    simp only [truthy, pureE_bind, ok_bind, pure_ok, pySub_e_location e s hl,
          pyGet_e_start_date, pyGet_e_end_date, pyGet_e_bullets, pyIter,
          pyStr, getS, List.map_map, Function.comp_def, Option.getD_some]
    split <;> simp [String.append_assoc]

theorem pdfDynEduOne_refines (e : Education) :
    pdfDynEduOne (eduToDyn e) = .ok [PBlock.para .body (pdfEduText e), PBlock.spacer 1 4] := by
  unfold pdfDynEduOne pdfEduText
  have hb : ("</b> - " : String) = "</b>" ++ " - " := rfl
  have hin : ("</b> in " : String) = "</b>" ++ " in " := rfl
  rw [pyGet_d_degree, ok_bind, pyGet_d_major, ok_bind, truthyD_opt_pynone]
  cases hm : e.major with
  | none =>
    simp only [truthy, Option.getD_none, bne_self_eq_false, Bool.false_eq_true, if_false]
    simp only [pyGet_d_school, pyGet_d_graduation_date, pureE_bind, ok_bind,
               truthyD_opt_pynone]
    cases hg : e.graduation_date with
    | none =>
      simp only [truthy, Option.getD_none, bne_self_eq_false, Bool.false_eq_true, if_false]
      simp [pyStr, getS, pure_ok, pureE_bind, ok_bind, hb, String.append_assoc]
    | some g =>
      simp only [truthy, Option.getD_some]
      split
      · simp only [pySub_d_graduation_date e g hg, pureE_bind, ok_bind]
        simp [pyStr, getS, pure_ok, pureE_bind, ok_bind, hb, String.append_assoc]
      · simp [pyStr, getS, pure_ok, pureE_bind, ok_bind, hb, String.append_assoc]
  | some m =>
    simp only [truthy, Option.getD_some]
    split
    · simp only [pySub_d_major e m hm, pureE_bind, ok_bind]
      simp only [pyGet_d_school, pyGet_d_graduation_date, pureE_bind, ok_bind,
                 truthyD_opt_pynone]
      cases hg : e.graduation_date with
      | none =>
        simp only [truthy, Option.getD_none, bne_self_eq_false, Bool.false_eq_true, if_false]
        simp [pyStr, getS, pure_ok, pureE_bind, ok_bind, hin, String.append_assoc] <;> try rfl
      | some g =>
        simp only [truthy, Option.getD_some]
        split
        · simp only [pySub_d_graduation_date e g hg, pureE_bind, ok_bind]
          simp [pyStr, getS, pure_ok, pureE_bind, ok_bind, hin, String.append_assoc] <;> try rfl
        · simp [pyStr, getS, pure_ok, pureE_bind, ok_bind, hin, String.append_assoc] <;> try rfl
    · simp only [pyGet_d_school, pyGet_d_graduation_date, pureE_bind, ok_bind,
                 truthyD_opt_pynone]
      cases hg : e.graduation_date with
      | none =>
        simp only [truthy, Option.getD_none, bne_self_eq_false, Bool.false_eq_true, if_false]
        simp [pyStr, getS, pure_ok, pureE_bind, ok_bind, hb, String.append_assoc]
      | some g =>
        simp only [truthy, Option.getD_some]
        split
        · simp only [pySub_d_graduation_date e g hg, pureE_bind, ok_bind]
          simp [pyStr, getS, pure_ok, pureE_bind, ok_bind, hb, String.append_assoc]
        · simp [pyStr, getS, pure_ok, pureE_bind, ok_bind, hb, String.append_assoc]

theorem pdfDynSkillsOne_refines (c : String × List String) :
    pdfDynSkillsOne (c.1, Dyn.list (c.2.map Dyn.str)) =
      .ok (if c.2 ≠ [] then [PBlock.para .body (pdfSkillLine c)] else []) := by
  unfold pdfDynSkillsOne pdfSkillLine pyJoin
  cases hc : c.2 with
  | nil => rfl
  | cons a rest =>
    simp only [truthyD, List.map_cons, List.isEmpty_cons, Bool.not_false, if_true,
               ne_eq, reduceCtorEq, not_false_eq_true]
    have hj := pyJoinItems_strs (a :: rest)
    simp only [List.map_cons] at hj
    simp [pyIter, ok_bind, hj, pure_ok]

theorem pdfDynSummary_refines (r : Resume) :
    pdfDynSummary (resumeToDyn r) = .ok (pdfSummary r) := by
  unfold pdfDynSummary pdfSummary
  rw [pyGet_rd_summary, ok_bind, truthyD_opt_pynone]
  cases hs : r.summary with
  | none => simp [truthy, pure_ok]
  | some s =>
    simp only [truthy, Option.getD_some]
    split
    · simp only [pySub_rd_summary r s hs, pureE_bind, ok_bind]
      simp [pyStr, getS, pure_ok]
    · rfl

theorem pdfDynExperience_refines (r : Resume) :
    pdfDynExperience (resumeToDyn r) = .ok (pdfExperience r) := by
  unfold pdfDynExperience pdfExperience
  rw [pyGet_rd_we, ok_bind]
  cases hw : r.work_experience with
  | nil => simp [truthyD, pure_ok]
  | cons a rest =>
    have hmm := mapM_ok expToDyn pdfDynExpOne pdfExpBlocks pdfDynExpOne_refines (a :: rest)
    simp only [List.map_cons, List.mapM] at hmm
    simp [truthyD, pyIter, ok_bind, pureE_bind, hmm, pure_ok]

theorem pdfDynEducation_refines (r : Resume) :
    pdfDynEducation (resumeToDyn r) = .ok (pdfEducation r) := by
  unfold pdfDynEducation pdfEducation
  rw [pyGet_rd_education, ok_bind]
  cases he : r.education with
  | nil => simp [truthyD, pure_ok]
  | cons a rest =>
    have hmm := mapM_ok eduToDyn pdfDynEduOne
      (fun e => [PBlock.para .body (pdfEduText e), PBlock.spacer 1 4])
      pdfDynEduOne_refines (a :: rest)
    simp only [List.map_cons, List.mapM] at hmm
    simp [truthyD, pyIter, ok_bind, pureE_bind, hmm, pure_ok]

theorem pdfDynSkills_refines (r : Resume) :
    pdfDynSkills (resumeToDyn r) = .ok (pdfSkills r) := by
  unfold pdfDynSkills pdfSkills pdfSkillsBody
  rw [pyGet_rd_skills, ok_bind]
  cases hk : r.skills with
  | nil => simp [truthyD, pure_ok]
  | cons a rest =>
    have hmm := mapM_ok (fun c => (c.1, Dyn.list (c.2.map Dyn.str))) pdfDynSkillsOne
      (fun c => if c.2 ≠ [] then [PBlock.para .body (pdfSkillLine c)] else [])
      pdfDynSkillsOne_refines (a :: rest)
    simp only [List.map_cons, List.mapM] at hmm
    simp [truthyD, pyItems, ok_bind, pureE_bind, hmm, pure_ok]

theorem pdfDynBody_refines (r : Resume) :
    pdfDynBody (resumeToDyn r) = .ok (exportToPdfStory r) := by
  unfold pdfDynBody exportToPdfStory
  simp only [pyGet_rd_personal, pdfDynHeader_refines, pdfDynSummary_refines,
             pdfDynExperience_refines, pdfDynEducation_refines,
             pdfDynSkills_refines, ok_bind, pureE_bind, pure_ok]

theorem docxDynSummary_refines (r : Resume) :
    docxDynSummary (resumeToDyn r) = .ok (docxSummary r) := by
  unfold docxDynSummary docxSummary
  rw [pyGet_rd_summary, ok_bind, truthyD_opt_pynone]
  cases hs : r.summary with
  | none => simp [truthy, pure_ok]
  | some s =>
    simp only [truthy, Option.getD_some]
    split
    · simp only [pySub_rd_summary r s hs, pureE_bind, ok_bind]
      simp [pyStr, getS, pure_ok]
    · rfl

theorem docxDynExpOne_refines (e : Experience) :
    docxDynExpOne (expToDyn e) = .ok (docxExpParas e) := by
  unfold docxDynExpOne docxExpParas docxJobText docxDateRange
  simp [pyGet_e_job_title, pyGet_e_company, pyGet_e_start_date, pyGet_e_end_date,
        pyGet_e_bullets, pyIter, ok_bind, pureE_bind, pure_ok, pyStr, getS,
        List.map_map, Function.comp_def]

theorem docxDynExperience_refines (r : Resume) :
    docxDynExperience (resumeToDyn r) = .ok (docxExperience r) := by
  unfold docxDynExperience docxExperience
  rw [pyGet_rd_we, ok_bind]
  cases hw : r.work_experience with
  | nil => simp [truthyD, pure_ok]
  | cons a rest =>
    have hmm := mapM_ok expToDyn docxDynExpOne docxExpParas docxDynExpOne_refines (a :: rest)
    simp only [List.map_cons, List.mapM] at hmm
    simp [truthyD, pyIter, ok_bind, pureE_bind, hmm, pure_ok]

theorem docxDynEduOne_refines (e : Education) :
    docxDynEduOne (eduToDyn e) = .ok [⟨docxEduRuns e, none, false⟩] := by
  unfold docxDynEduOne docxEduRuns
  rw [pyGet_d_degree, ok_bind, pyGet_d_major, ok_bind, truthyD_opt_pynone]
  cases hm : e.major with
  | none =>
    simp only [truthy, Option.getD_none, bne_self_eq_false, Bool.false_eq_true, if_false]
    simp only [pyGet_d_school, pyGet_d_graduation_date, pureE_bind, ok_bind,
               truthyD_opt_pynone]
    cases hg : e.graduation_date with
    | none =>
      simp only [truthy, Option.getD_none, bne_self_eq_false, Bool.false_eq_true, if_false]
      simp [pyStr, getS, pure_ok, pureE_bind, ok_bind]
    | some g =>
      simp only [truthy, Option.getD_some]
      split
      · simp only [pySub_d_graduation_date e g hg, pureE_bind, ok_bind]
        simp [pyStr, getS, pure_ok, pureE_bind, ok_bind]
      · simp [pyStr, getS, pure_ok, pureE_bind, ok_bind]
  | some m =>
    simp only [truthy, Option.getD_some]
    split
    · simp only [pySub_d_major e m hm, pureE_bind, ok_bind]
      simp only [pyGet_d_school, pyGet_d_graduation_date, pureE_bind, ok_bind,
                 truthyD_opt_pynone]
      cases hg : e.graduation_date with
      | none =>
        simp only [truthy, Option.getD_none, bne_self_eq_false, Bool.false_eq_true, if_false]
        simp [pyStr, getS, pure_ok, pureE_bind, ok_bind]
      | some g =>
        simp only [truthy, Option.getD_some]
        split
        · simp only [pySub_d_graduation_date e g hg, pureE_bind, ok_bind]
          simp [pyStr, getS, pure_ok, pureE_bind, ok_bind]
        · simp [pyStr, getS, pure_ok, pureE_bind, ok_bind]
    · simp only [pyGet_d_school, pyGet_d_graduation_date, pureE_bind, ok_bind,
                 truthyD_opt_pynone]
      cases hg : e.graduation_date with
      | none =>
        simp only [truthy, Option.getD_none, bne_self_eq_false, Bool.false_eq_true, if_false]
        simp [pyStr, getS, pure_ok, pureE_bind, ok_bind]
      | some g =>
        simp only [truthy, Option.getD_some]
        split
        · simp only [pySub_d_graduation_date e g hg, pureE_bind, ok_bind]
          simp [pyStr, getS, pure_ok, pureE_bind, ok_bind]
        · simp [pyStr, getS, pure_ok, pureE_bind, ok_bind]

theorem flatten_singleton_map {α β : Type} (f : α → β) (l : List α) :
    (l.map (fun a => [f a])).flatten = l.map f := by
  induction l with
  | nil => rfl
  | cons a rest ih => simp [ih]

theorem docxDynEducation_refines (r : Resume) :
    docxDynEducation (resumeToDyn r) = .ok (docxEducation r) := by
  unfold docxDynEducation docxEducation
  rw [pyGet_rd_education, ok_bind]
  cases he : r.education with
  | nil => simp [truthyD, pure_ok]
  | cons a rest =>
    have hmm := mapM_ok eduToDyn docxDynEduOne
      (fun e => [(⟨docxEduRuns e, none, false⟩ : DPara)])
      docxDynEduOne_refines (a :: rest)
    simp only [List.map_cons, List.mapM] at hmm
    simp [truthyD, pyIter, ok_bind, pureE_bind, hmm, pure_ok,
          flatten_singleton_map (fun e => (⟨docxEduRuns e, none, false⟩ : DPara))]

theorem docxDynSkillsOne_refines (c : String × List String) :
    docxDynSkillsOne (c.1, Dyn.list (c.2.map Dyn.str)) =
      .ok (if c.2 ≠ [] then
        [(⟨[⟨c.1 ++ ": ", true, none⟩, ⟨String.intercalate ", " c.2, false, none⟩], none, false⟩ : DPara)]
      else []) := by
  unfold docxDynSkillsOne pyJoin
  cases hc : c.2 with
  | nil => rfl
  | cons a rest =>
    simp only [truthyD, List.map_cons, List.isEmpty_cons, Bool.not_false, if_true,
               ne_eq, reduceCtorEq, not_false_eq_true]
    have hj := pyJoinItems_strs (a :: rest)
    simp only [List.map_cons] at hj
    simp [pyIter, ok_bind, hj, pure_ok]

theorem docxDynSkills_refines (r : Resume) :
    docxDynSkills (resumeToDyn r) = .ok (docxSkills r) := by
  unfold docxDynSkills docxSkills docxSkillsBody
  rw [pyGet_rd_skills, ok_bind]
  cases hk : r.skills with
  | nil => simp [truthyD, pure_ok]
  | cons a rest =>
    have hmm := mapM_ok (fun c => (c.1, Dyn.list (c.2.map Dyn.str))) docxDynSkillsOne
      (fun c => if c.2 ≠ [] then
        [(⟨[⟨c.1 ++ ": ", true, none⟩, ⟨String.intercalate ", " c.2, false, none⟩], none, false⟩ : DPara)]
      else [])
      docxDynSkillsOne_refines (a :: rest)
    simp only [List.map_cons, List.mapM] at hmm
    simp [truthyD, pyItems, ok_bind, pureE_bind, hmm, pure_ok]

theorem docxDynBody_refines (r : Resume) :
    docxDynBody (resumeToDyn r) = .ok (docxParagraphs r) := by
  unfold docxDynBody docxParagraphs
  simp only [pyGet_rd_personal, docxDynHeader_refines, docxDynSummary_refines,
             docxDynExperience_refines, docxDynEducation_refines,
             docxDynSkills_refines, ok_bind, pureE_bind, pure_ok]

/-- Claim C8, counterexample: there is no `InvalidDocument` pre-validation.
For a document whose `work_experience` is a number, both binary exporters
run until the iteration fails and surface the underlying runtime error
wrapped in the format-tagged message of their `except` clause; the message
does not mention any `InvalidDocument` error kind. -/
theorem C8_counterexample :
    exportToPdfDyn badWorkExpDoc =
      .error "PDF export failed: \x27int\x27 object is not iterable" ∧
    exportToDocxDyn badWorkExpDoc =
      .error "DOCX export failed: \x27int\x27 object is not iterable" ∧
    strInB "InvalidDocument" "PDF export failed: \x27int\x27 object is not iterable" = false :=
  ⟨rfl, rfl, by decide⟩

/-- Claim C8, amended: the render operations perform no schema
pre-validation and raise no `InvalidDocument` error; instead they fail
closed in the wrapped form of their `except` clauses — every outcome of
`export_to_pdf`/`export_to_docx` is either a complete output or an error
tagged `PDF export failed: `/`DOCX export failed: ` with no partial
output — and they are total on schema-conforming documents: on the
encoding of any document of the data model they succeed and return
exactly what the typed renderers produce. -/
theorem C8_amended :
    (∀ d : Dyn, (∃ out, exportToPdfDyn d = .ok out) ∨
      (∃ msg, exportToPdfDyn d = .error ("PDF export failed: " ++ msg))) ∧
    (∀ d : Dyn, (∃ out, exportToDocxDyn d = .ok out) ∨
      (∃ msg, exportToDocxDyn d = .error ("DOCX export failed: " ++ msg))) ∧
    (∀ r : Resume, exportToPdfDyn (resumeToDyn r) = .ok (exportToPdfStory r)) ∧
    (∀ r : Resume, exportToDocxDyn (resumeToDyn r) = .ok (docxParagraphs r)) := by
  refine ⟨?_, ?_, ?_, ?_⟩
  · intro d
    unfold exportToPdfDyn
    cases hb : pdfDynBody d with
    | ok o => exact Or.inl ⟨o, rfl⟩
    | error e => exact Or.inr ⟨e, rfl⟩
  · intro d
    unfold exportToDocxDyn
    cases hb : docxDynBody d with
    | ok o => exact Or.inl ⟨o, rfl⟩
    | error e => exact Or.inr ⟨e, rfl⟩
  · intro r
    unfold exportToPdfDyn
    rw [pdfDynBody_refines]
  · intro r
    unfold exportToDocxDyn
    rw [docxDynBody_refines]
